import Mathlib

/-!
# google-maps-to-waze: the bot entry point (`app/main.go`)

A shallow embedding of `app/main.go`.  The packages `text`, `maps`,
`telegram`, `net/http`, `net/url` and `os` are collaborators of the file and
enter as parameters: every call into them is a state-passing function over an
abstract world, and every call site of the source appends one entry, with the
arguments it passed and the result it got back, to a call log.  Collaborators
are assumed to return (a Go call that panics is not modelled, with the
exception of `mux.Handle`, whose panic is part of its documented contract;
`Poll` and `ListenAndServe` may block for good).  A nil `message` and a nil
link returned next to a nil error are not modelled either.
-/

namespace GoogleMapsToWaze

/-! ## Go errors (`error`, `github.com/pkg/errors`) -/

/-- A non-nil Go `error` value: an error raised by a collaborator, or an error
annotated with a message by `errors.Wrap` / `errors.Wrapf`. -/
inductive GoError where
  | fundamental (msg : String)
  | withMessage (cause : GoError) (msg : String)
deriving DecidableEq, Repr

/-- The method `Error()`: an annotated error prints its message, a colon and
the text of its cause. -/
def GoError.Error : GoError → String
  | .fundamental msg => msg
  | .withMessage cause msg => msg ++ ": " ++ cause.Error

/-- The function `errors.Cause`: the innermost error of the chain. -/
def GoError.Cause : GoError → GoError
  | .fundamental msg => .fundamental msg
  | .withMessage cause _ => cause.Cause

/-- The function `errors.Wrap(err, message)`: nil for a nil error, otherwise
the error annotated with the message (the stack trace it records is not
modelled).  `errors.Wrapf` is the same after formatting the message. -/
def Wrap (err : Option GoError) (message : String) : Option GoError :=
  match err with
  | none => none
  | some e => some (GoError.withMessage e message)

/-! ## Types of the collaborators -/

/-- The types owned by the collaborating packages. -/
structure Types where
  /-- Everything outside the process that a call may read or change. -/
  World : Type
  /-- The type `*url.URL`. -/
  URL : Type
  /-- The type `*maps.GoogleMapsLink`. -/
  GoogleMapsLink : Type
  /-- The type `*maps.WazeLink`. -/
  WazeLink : Type
  /-- The type of the fetcher built by `maps.HttpGetToInput`. -/
  Fetcher : Type
  /-- The type of the bot handle returned by `telegram.New`. -/
  Telegram : Type
  /-- The type `*telegram.Webhook`. -/
  Webhook : Type
  /-- The type `*http.ServeMux`. -/
  ServeMux : Type
  /-- The type `*http.Request`. -/
  Request : Type

/-- The type `time.Duration`: a count of nanoseconds. -/
abbrev Duration := Int

/-- The constant `time.Second`. -/
def Second : Duration := 1000000000

/-- A cookie jar (`http.CookieJar`); the source never builds one. -/
structure CookieJar where
  id : Nat
deriving DecidableEq, Repr

/-- The fields of `http.Client` that the source sets. -/
structure HttpClient where
  Timeout : Duration
  Jar : Option CookieJar
deriving DecidableEq, Repr

/-- The struct `telegram.Reply`. -/
structure Reply where
  Text : String
  Styled : Bool
  DisableWebPagePreview : Bool
deriving DecidableEq, Repr

/-- The struct `telegram.Message` as far as `onMessage` uses it: the field
`Text` and the method `Reply`. -/
structure Message (T : Types) where
  Text : String
  Reply : Reply → T.World → Option GoError × T.World

/-- The functions of the packages `text`, `maps` and `net/url` that
`onMessage` calls.  A stage returns either its error or its value; the value
a Go function returns next to a non-nil error is never read by the source. -/
structure Pipeline (T : Types) where
  /-- The function `text.ParseFirstUrl`. -/
  ParseFirstUrl : String → T.World → Except GoError T.URL × T.World
  /-- The function `maps.HttpGetToInput`. -/
  HttpGetToInput : HttpClient → T.World → T.Fetcher × T.World
  /-- The function `maps.ParseGoogleMapsFromURL`. -/
  ParseGoogleMapsFromURL : T.URL → T.Fetcher → T.World → Except GoError T.GoogleMapsLink × T.World
  /-- The function `maps.WazeFromLocation`. -/
  WazeFromLocation : T.GoogleMapsLink → T.World → Except GoError T.WazeLink × T.World
  /-- The method `(*maps.WazeLink).URL`. -/
  WazeLinkURL : T.WazeLink → T.URL
  /-- The method `(*url.URL).String`, also used by the verb `%s`. -/
  URLString : T.URL → String

/-- One entry of the call log of `onMessage`: the collaborator called, the
arguments passed and what came back. -/
inductive Call (T : Types) where
  | parseFirstUrl (text : String) (res : Except GoError T.URL)
  | httpGetToInput (client : HttpClient) (res : T.Fetcher)
  | parseGoogleMapsFromURL (u : T.URL) (fetch : T.Fetcher) (res : Except GoError T.GoogleMapsLink)
  | wazeFromLocation (link : T.GoogleMapsLink) (res : Except GoError T.WazeLink)
  | reply (r : Reply) (res : Option GoError)

/-- What one run of `onMessage` leaves behind: the returned `error` (none is
nil), the calls made in program order, and the world afterwards. -/
structure Outcome (T : Types) where
  err : Option GoError
  calls : List (Call T)
  world : T.World

/-! ## `app/main.go`: the message handler -/

/-- The constant `welcomeMessage` (a raw string literal: it starts and ends
with a line break). -/
def welcomeMessage : String :=
  "\nWelcome to the Google Maps to Waze bot!\n" ++
  "Please send a Google Maps link, and I will provide you with a Waze link.\n" ++
  "\n" ++
  "Examples:\n" ++
  "- A short shared place link:\n" ++
  "https://maps.app.goo.gl/M1B5J2cipJsHdRgy5\n" ++
  "- A full link with coordinates:\n" ++
  "http://www.google.com/maps/place/40.7579747,-73.9855426\n" ++
  "- Any message that includes a maps link:\n" ++
  "Hey! Check out this restaurant https://maps.app.goo.gl/jrDb7yQAfrJsvpaCA\n" ++
  "\n" ++
  "I am also capable of helping in group chats. Simply add me to the group and mention me with a link.\n" ++
  "Forwarding messages is just as effective as sending them directly!\n" ++
  "\n" ++
  "_*Waze app must be running before clicking on a Waze link!_\n" ++
  "_Otherwise the first link opening will just open the app but will not start the navigation._\n" ++
  "_This is a known Waze bug and not related to me._\n" ++
  "\n" ++
  "Enjoy!\n"

/-- The package variable `httpClient`. -/
def httpClient : HttpClient := { Timeout := 15 * Second, Jar := none }

/-- The function `onMessage`. -/
def onMessage {T : Types} (P : Pipeline T) (message : Message T) (w : T.World) : Outcome T :=
  if message.Text = "/start" then
    let r : Reply := { Text := welcomeMessage, Styled := true, DisableWebPagePreview := true }
    match message.Reply r w with
    | (res, w1) => { err := res, calls := [Call.reply r res], world := w1 }
  else
    match P.ParseFirstUrl message.Text w with
    | (Except.error err, w1) =>
      { err := Wrap (some err) "failed to parse url from message",
        calls := [Call.parseFirstUrl message.Text (Except.error err)],
        world := w1 }
    | (Except.ok u, w1) =>
      match P.HttpGetToInput httpClient w1 with
      | (fetch, w2) =>
        match P.ParseGoogleMapsFromURL u fetch w2 with
        | (Except.error err, w3) =>
          { err := Wrap (some err) ("failed to parse google maps link: " ++ P.URLString u),
            calls := [Call.parseFirstUrl message.Text (Except.ok u),
                      Call.httpGetToInput httpClient fetch,
                      Call.parseGoogleMapsFromURL u fetch (Except.error err)],
            world := w3 }
        | (Except.ok googleMapsLink, w3) =>
          match P.WazeFromLocation googleMapsLink w3 with
          | (Except.error err, w4) =>
            { err := Wrap (some err) "failed to map google maps url to waze link",
              calls := [Call.parseFirstUrl message.Text (Except.ok u),
                        Call.httpGetToInput httpClient fetch,
                        Call.parseGoogleMapsFromURL u fetch (Except.ok googleMapsLink),
                        Call.wazeFromLocation googleMapsLink (Except.error err)],
              world := w4 }
          | (Except.ok wazeLink, w4) =>
            let r : Reply := { Text := P.URLString (P.WazeLinkURL wazeLink),
                               Styled := false, DisableWebPagePreview := true }
            match message.Reply r w4 with
            | (res, w5) =>
              { err := res,
                calls := [Call.parseFirstUrl message.Text (Except.ok u),
                          Call.httpGetToInput httpClient fetch,
                          Call.parseGoogleMapsFromURL u fetch (Except.ok googleMapsLink),
                          Call.wazeFromLocation googleMapsLink (Except.ok wazeLink),
                          Call.reply r res],
                world := w5 }

/-! ## `app/main.go`: configuration, transports and the HTTP server -/

/-- The type of the callback handed to the transports: the type of
`onMessage`. -/
abbrev MessageHandler (T : Types) := Message T → T.World → Outcome T

/-- A call on the `http.ResponseWriter` of a request. -/
inductive ResponseWriterCall where
  | WriteHeader (statusCode : Int)
  | Write (body : String)
deriving DecidableEq, Repr

/-- The interface `http.Handler`: what serving one request does to its
response writer and to the world. -/
abbrev HttpHandler (T : Types) := T.Request → T.World → List ResponseWriterCall × T.World

/-- The fields of `http.Server` that the source sets. -/
structure Server (T : Types) where
  Addr : String
  Handler : T.ServeMux
  ReadHeaderTimeout : Duration
  WriteTimeout : Duration
  IdleTimeout : Duration

/-- The functions of the packages `os`, `net/url`, `telegram` and `net/http`
that `main` and its helpers call.  `Poll` and `ListenAndServe` block while
they work: none is a call that does not return.  `Handle` panics on a
pattern the mux does not accept: none is that panic. -/
structure Runtime (T : Types) where
  /-- The function `os.Getenv`. -/
  Getenv : String → T.World → String
  /-- The function `url.Parse`. -/
  Parse : String → Except GoError T.URL
  /-- The field `Path` of a `url.URL`. -/
  Path : T.URL → String
  /-- The function `telegram.New`. -/
  New : String → T.World → Except GoError T.Telegram × T.World
  /-- The method `CloseWebhook` of the bot handle. -/
  CloseWebhook : T.Telegram → T.World → Option GoError × T.World
  /-- The method `Poll` of the bot handle. -/
  Poll : T.Telegram → MessageHandler T → T.World → Option (Option GoError × T.World)
  /-- The method `Webhook` of the bot handle. -/
  Webhook : T.Telegram → T.URL → MessageHandler T → T.World → Except GoError T.Webhook × T.World
  /-- The field `Handler` of a `telegram.Webhook`. -/
  WebhookHandler : T.Webhook → HttpHandler T
  /-- The function `http.NewServeMux`. -/
  NewServeMux : T.ServeMux
  /-- The method `(*http.ServeMux).Handle`. -/
  Handle : T.ServeMux → String → HttpHandler T → Option T.ServeMux
  /-- The method `(*http.Server).ListenAndServe`. -/
  ListenAndServe : Server T → T.World → Option (Option GoError × T.World)

/-- The struct `telegramOpts`. -/
structure telegramOpts (T : Types) where
  Token : String
  WebhookLink : Option T.URL

/-- The struct `opts`. -/
structure opts (T : Types) where
  telegram : telegramOpts T
  disableHealthCheck : Bool

/-- The constant `healthCheckPath`. -/
def healthCheckPath : String := "/health"

/-- The constant `serverPort`. -/
def serverPort : Nat := 8080

/-- The function `envOpts`; an error result is the value it panics with. -/
def envOpts {T : Types} (R : Runtime T) (w : T.World) : Except (Option GoError) (opts T) :=
  let webhookLinkRaw := R.Getenv "TELEGRAM_WEBHOOK_LINK" w
  let parsed : Except (Option GoError) (Option T.URL) :=
    if webhookLinkRaw ≠ "" then
      match R.Parse webhookLinkRaw with
      | Except.error err => Except.error (Wrap (some err) "failed to parse webhook link")
      | Except.ok u => Except.ok (some u)
    else Except.ok none
  match parsed with
  | Except.error v => Except.error v
  | Except.ok webhookLink =>
    Except.ok
      { telegram := { Token := R.Getenv "TELEGRAM_TOKEN" w, WebhookLink := webhookLink },
        disableHealthCheck := R.Getenv "DISABLE_HEALTH_CHECK" w == "true" }

/-- One step of a goroutine started by `main`: a call into the packages
`telegram` or `net/http` with what came back, a send on the channel `ch`, or
the panic of a registration. -/
inductive GoEvent (T : Types) where
  | closeWebhook (tg : T.Telegram) (res : Option GoError)
  | poll (tg : T.Telegram) (handler : MessageHandler T) (res : Option (Option GoError))
  | handle (pattern : String) (handler : HttpHandler T) (res : Option T.ServeMux)
  | listenAndServe (srv : Server T) (res : Option (Option GoError))
  | send (err : GoError)
  | panicked

/-- The steps of a goroutine in program order and the world it leaves. A
send on the channel `ch` completes when `main` receives, and `main` then
panics with the value: the steps listed after a send race with the end of
the process.  How the goroutines interleave is not modelled. -/
structure GoOutcome (T : Types) where
  events : List (GoEvent T)
  world : T.World

/-- The type `serverOpt`: a function that modifies a mux.  Applied to a mux
it gives the calls of `mux.Handle` it makes and the mux afterwards (none
when a registration panics). -/
abbrev serverOpt (T : Types) := T.ServeMux → List (GoEvent T) × Option T.ServeMux

/-- The function `withTelegramWebhook`. -/
def withTelegramWebhook {T : Types} (R : Runtime T) (path : String) (wh : T.Webhook) : serverOpt T :=
  fun mux =>
    ([GoEvent.handle path (R.WebhookHandler wh) (R.Handle mux path (R.WebhookHandler wh))],
     R.Handle mux path (R.WebhookHandler wh))

/-- The handler function literal inside `withHealthCheck`. -/
def healthCheckHandler {T : Types} : HttpHandler T :=
  fun _ w => ([ResponseWriterCall.WriteHeader 200], w)

/-- The function `withHealthCheck`. -/
def withHealthCheck {T : Types} (R : Runtime T) : serverOpt T :=
  fun mux =>
    ([GoEvent.handle healthCheckPath healthCheckHandler
        (R.Handle mux healthCheckPath healthCheckHandler)],
     R.Handle mux healthCheckPath healthCheckHandler)

/-- The loop of `server`: every option applied to the mux, in order, up to
the first panic. -/
def applyOpts {T : Types} : List (serverOpt T) → T.ServeMux → List (GoEvent T) × Option T.ServeMux
  | [], mux => ([], some mux)
  | o :: rest, mux =>
    match o mux with
    | (ev, none) => (ev, none)
    | (ev, some mux1) =>
      match applyOpts rest mux1 with
      | (ev2, res) => (ev ++ ev2, res)

/-- The function `server`: the registrations it makes and the server it
returns (none when a registration panics). -/
def server {T : Types} (R : Runtime T) (serverOpts : List (serverOpt T)) :
    List (GoEvent T) × Option (Server T) :=
  match applyOpts serverOpts R.NewServeMux with
  | (ev, none) => (ev, none)
  | (ev, some mux) =>
    (ev, some { Addr := "" ++ ":" ++ toString serverPort,
                Handler := mux,
                ReadHeaderTimeout := 5 * Second,
                WriteTimeout := 5 * Second,
                IdleTimeout := 30 * Second })

/-- The body of the goroutine that polls: the first function literal of
`main`, over the bot handle it captures. -/
def pollGoroutine {T : Types} (R : Runtime T) (P : Pipeline T) (tg : T.Telegram) (w : T.World) :
    GoOutcome T :=
  match R.CloseWebhook tg w with
  | (res1, w1) =>
    let sent1 : List (GoEvent T) :=
      match res1 with
      | some err => [GoEvent.send err]
      | none => []
    match R.Poll tg (onMessage P) w1 with
    | none =>
      { events := [GoEvent.closeWebhook tg res1] ++ sent1 ++ [GoEvent.poll tg (onMessage P) none],
        world := w1 }
    | some (res2, w2) =>
      let sent2 : List (GoEvent T) :=
        match res2 with
        | some err => [GoEvent.send err]
        | none => []
      { events := [GoEvent.closeWebhook tg res1] ++ sent1 ++
                  [GoEvent.poll tg (onMessage P) (some res2)] ++ sent2,
        world := w2 }

/-- The body of the goroutine that serves HTTP: the second function literal
of `main`, over the options it captures (its log line is not modelled). -/
def serveGoroutine {T : Types} (R : Runtime T) (serverOpts : List (serverOpt T)) (w : T.World) :
    GoOutcome T :=
  match server R serverOpts with
  | (ev, none) => { events := ev ++ [GoEvent.panicked], world := w }
  | (ev, some srv) =>
    match R.ListenAndServe srv w with
    | none => { events := ev ++ [GoEvent.listenAndServe srv none], world := w }
    | some (res, w1) =>
      let sent : List (GoEvent T) :=
        match res with
        | some err => [GoEvent.send err]
        | none => []
      { events := ev ++ [GoEvent.listenAndServe srv (some res)] ++ sent, world := w1 }

/-- One step of the main goroutine: a call into the package `telegram`, or
a `go` statement with the body of its function literal, as a function of the
world the goroutine starts in. -/
inductive MainEvent (T : Types) where
  | telegramNew (token : String) (res : Except GoError T.Telegram)
  | go (body : T.World → GoOutcome T)
  | webhook (tg : T.Telegram) (link : T.URL) (handler : MessageHandler T)
      (res : Except GoError T.Webhook)

/-- How the main goroutine ends: a panic of its own, or the last statement
`panic(<-ch)`, which blocks until a goroutine sends an error. -/
inductive MainEnd where
  | panicked (v : Option GoError)
  | awaitsChannel
deriving DecidableEq, Repr

/-- What `main` does: its steps in program order, how it ends, and the
world when it gets there. -/
structure MainOutcome (T : Types) where
  events : List (MainEvent T)
  finish : MainEnd
  world : T.World

/-- The function `main`. -/
def main {T : Types} (R : Runtime T) (P : Pipeline T) (w : T.World) : MainOutcome T :=
  match envOpts R w with
  | Except.error v => { events := [], finish := MainEnd.panicked v, world := w }
  | Except.ok o =>
    match R.New o.telegram.Token w with
    | (Except.error err, w1) =>
      { events := [MainEvent.telegramNew o.telegram.Token (Except.error err)],
        finish := MainEnd.panicked (Wrap (some err) "failed to initialize telegram"),
        world := w1 }
    | (Except.ok tg, w1) =>
      let ev0 : List (MainEvent T) := [MainEvent.telegramNew o.telegram.Token (Except.ok tg)]
      let ev1 : List (MainEvent T) :=
        match o.telegram.WebhookLink with
        | none => ev0 ++ [MainEvent.go (pollGoroutine R P tg)]
        | some _ => ev0
      let hooked : Except GoError (List (serverOpt T)) × List (MainEvent T) × T.World :=
        match o.telegram.WebhookLink with
        | none => (Except.ok [], ev1, w1)
        | some link =>
          match R.Webhook tg link (onMessage P) w1 with
          | (Except.error err, w2) =>
            (Except.error err,
             ev1 ++ [MainEvent.webhook tg link (onMessage P) (Except.error err)], w2)
          | (Except.ok wh, w2) =>
            (Except.ok ([] ++ [withTelegramWebhook R (R.Path link) wh]),
             ev1 ++ [MainEvent.webhook tg link (onMessage P) (Except.ok wh)], w2)
      match hooked with
      | (Except.error err, ev2, w2) =>
        { events := ev2,
          finish := MainEnd.panicked (Wrap (some err) "failed to initialize webhook"),
          world := w2 }
      | (Except.ok serverOpts1, ev2, w2) =>
        let serverOpts2 : List (serverOpt T) :=
          if !o.disableHealthCheck then serverOpts1 ++ [withHealthCheck R] else serverOpts1
        let ev3 : List (MainEvent T) :=
          if serverOpts2.length > 0 then ev2 ++ [MainEvent.go (serveGoroutine R serverOpts2)]
          else ev2
        { events := ev3, finish := MainEnd.awaitsChannel, world := w2 }

/-! ## Observers of the call log -/

/-- The reply built in the `/start` branch of `onMessage`. -/
def welcomeReply : Reply :=
  { Text := welcomeMessage, Styled := true, DisableWebPagePreview := true }

/-- The reply built at the end of the pipeline for a Waze link. -/
def wazeReply {T : Types} (P : Pipeline T) (wazeLink : T.WazeLink) : Reply :=
  { Text := P.URLString (P.WazeLinkURL wazeLink), Styled := false, DisableWebPagePreview := true }

/-- Whether the entry is a call of `text.ParseFirstUrl`. -/
def Call.isParseFirstUrl {T : Types} : Call T → Bool
  | Call.parseFirstUrl _ _ => true
  | _ => false

/-- Whether the entry is a call of `maps.ParseGoogleMapsFromURL`. -/
def Call.isParseGoogleMapsFromURL {T : Types} : Call T → Bool
  | Call.parseGoogleMapsFromURL _ _ _ => true
  | _ => false

/-- Whether the entry is a call of `maps.WazeFromLocation`. -/
def Call.isWazeFromLocation {T : Types} : Call T → Bool
  | Call.wazeFromLocation _ _ => true
  | _ => false

/-- Whether the entry is a call of `message.Reply`. -/
def Call.isReply {T : Types} : Call T → Bool
  | Call.reply _ _ => true
  | _ => false

/-- Whether the entry is a call of one of the three stages that returned an
error. -/
def Call.stageFailed {T : Types} : Call T → Bool
  | Call.parseFirstUrl _ (Except.error _) => true
  | Call.parseGoogleMapsFromURL _ _ (Except.error _) => true
  | Call.wazeFromLocation _ (Except.error _) => true
  | _ => false

/-- The three stages of the pipeline. -/
inductive Stage where
  | scanner
  | resolver
  | encoder
deriving DecidableEq, Repr

/-- The message `onMessage` annotates the error of a stage with; the
message of the resolver ends in the text of the URL. -/
def Stage.wrapMessage (urlText : String) : Stage → String
  | Stage.scanner => "failed to parse url from message"
  | Stage.resolver => "failed to parse google maps link: " ++ urlText
  | Stage.encoder => "failed to map google maps url to waze link"

/-- The first stage that returns an error when the three stages are run on
the text of the message, each on the output of the one before, with that
error and the text of the URL the scanner found (empty while there is
none); none for the text `/start` and when all three succeed. -/
def stageFailure {T : Types} (P : Pipeline T) (message : Message T) (w : T.World) :
    Option (Stage × GoError × String) :=
  if message.Text = "/start" then none
  else
    match P.ParseFirstUrl message.Text w with
    | (Except.error e, _) => some (Stage.scanner, e, "")
    | (Except.ok u, w1) =>
      match P.HttpGetToInput httpClient w1 with
      | (fetch, w2) =>
        match P.ParseGoogleMapsFromURL u fetch w2 with
        | (Except.error e, _) => some (Stage.resolver, e, P.URLString u)
        | (Except.ok link, w3) =>
          match P.WazeFromLocation link w3 with
          | (Except.error e, _) => some (Stage.encoder, e, "")
          | (Except.ok _, _) => none

/-- How many entries of the log satisfy the test. -/
def countCalls {T : Types} (p : Call T → Bool) (calls : List (Call T)) : Nat :=
  (calls.filter p).length

/-- Whether the step of `main` is a call of `tg.Webhook`. -/
def MainEvent.isWebhook {T : Types} : MainEvent T → Bool
  | MainEvent.webhook _ _ _ _ => true
  | _ => false

/-- How many steps of `main` satisfy the test. -/
def countSteps {T : Types} (p : MainEvent T → Bool) (events : List (MainEvent T)) : Nat :=
  (events.filter p).length

/-- Whether the step of a goroutine is a call of `tg.Poll`. -/
def GoEvent.isPoll {T : Types} : GoEvent T → Bool
  | GoEvent.poll _ _ _ => true
  | _ => false

/-- The pattern and the handler of a call of `mux.Handle` that the mux
accepted. -/
def GoEvent.registration {T : Types} : GoEvent T → Option (String × HttpHandler T)
  | GoEvent.handle pattern handler (some _) => some (pattern, handler)
  | _ => none

/-- The registrations a goroutine made, in order. -/
def registrations {T : Types} (events : List (GoEvent T)) : List (String × HttpHandler T) :=
  events.filterMap GoEvent.registration

/-- The mux that `mux.Handle` builds from a mux by the registrations, in
order (none when one of them panics). -/
def registerAll {T : Types} (R : Runtime T) :
    List (String × HttpHandler T) → T.ServeMux → Option T.ServeMux
  | [], mux => some mux
  | (pattern, handler) :: rest, mux =>
    match R.Handle mux pattern handler with
    | none => none
    | some mux1 => registerAll R rest mux1

/-- The option that makes one registration: both `withTelegramWebhook` and
`withHealthCheck` are of this form. -/
def registerOpt {T : Types} (R : Runtime T) (reg : String × HttpHandler T) : serverOpt T :=
  fun mux =>
    ([GoEvent.handle reg.1 reg.2 (R.Handle mux reg.1 reg.2)], R.Handle mux reg.1 reg.2)

/-- The registration of the health check, when it is not disabled. -/
def healthRegs {T : Types} (disableHealthCheck : Bool) : List (String × HttpHandler T) :=
  if disableHealthCheck = true then [] else [(healthCheckPath, healthCheckHandler)]

/-- The goroutine initialises polling with the handler: in whatever world it
starts, its first step, in program order, is a call of `CloseWebhook` and it
calls `Poll` once, with the handler. -/
def PollsWith {T : Types} (handler : MessageHandler T) (body : T.World → GoOutcome T) : Prop :=
  ∀ wp : T.World, ∃ tg res1 res2,
    (body wp).events.head? = some (GoEvent.closeWebhook tg res1) ∧
    (body wp).events.filter GoEvent.isPoll = [GoEvent.poll tg handler res2]

/-- The goroutine serves HTTP on the address with exactly the
registrations: in whatever world it starts, the registrations it makes are
these, and it calls `ListenAndServe` on a server with the address whose mux
is a new mux with these registrations. -/
def ServesOn {T : Types} (R : Runtime T) (addr : String) (regs : List (String × HttpHandler T))
    (body : T.World → GoOutcome T) : Prop :=
  ∀ wp : T.World, registrations (body wp).events = regs ∧
    ∃ srv res, GoEvent.listenAndServe srv res ∈ (body wp).events ∧ srv.Addr = addr ∧
      registerAll R regs R.NewServeMux = some srv.Handler

/-- The run of `main` initialises the polling API with the handler: it
starts a goroutine that does. -/
def StartsPolling {T : Types} (handler : MessageHandler T) (out : MainOutcome T) : Prop :=
  ∃ body, MainEvent.go body ∈ out.events ∧ PollsWith handler body

/-- The run of `main` starts the HTTP server, on port 8080, with exactly the
registrations. -/
def StartsServer {T : Types} (R : Runtime T) (regs : List (String × HttpHandler T))
    (out : MainOutcome T) : Prop :=
  ∃ body, MainEvent.go body ∈ out.events ∧ ServesOn R ":8080" regs body

/-- The run of `main` creates a webhook with the handler and registers the
HTTP handler of that webhook on the server it starts, at the path of the
webhook link. -/
def ServesWebhook {T : Types} (R : Runtime T) (handler : MessageHandler T)
    (out : MainOutcome T) : Prop :=
  ∃ tg link wh regs, MainEvent.webhook tg link handler (Except.ok wh) ∈ out.events ∧
    StartsServer R regs out ∧ (R.Path link, R.WebhookHandler wh) ∈ regs

/-! ## A concrete environment

A small executable instance of the collaborators, on which the functions
above can be evaluated. -/

/-- The world of the instance: three environment variables and a count of
the calls made so far. -/
structure DemoWorld where
  webhookLink : String
  disableHealthCheck : String
  token : String
  clock : Nat
deriving DecidableEq, Repr

/-- One more call made. -/
def DemoWorld.tick (w : DemoWorld) : DemoWorld := { w with clock := w.clock + 1 }

/-- The types of the instance. -/
@[reducible] def demoTypes : Types :=
  { World := DemoWorld, URL := String, GoogleMapsLink := String, WazeLink := String,
    Fetcher := HttpClient, Telegram := String, Webhook := String,
    ServeMux := List String, Request := String }

/-- The text from the first occurrence of `https://` up to the next blank. -/
def demoFirstUrl : List Char → Option (List Char)
  | [] => none
  | c :: cs =>
    if List.isPrefixOf "https://".toList (c :: cs) then some ((c :: cs).takeWhile (fun x => x != ' '))
    else demoFirstUrl cs

/-- A scanner, a resolver that accepts the links under `https://maps.example/`
and reads the coordinates after it, and an encoder that rejects empty
coordinates. -/
def demoPipeline : Pipeline demoTypes :=
  { ParseFirstUrl := fun text w =>
      match demoFirstUrl text.toList with
      | none => (Except.error (GoError.fundamental "no url found"), DemoWorld.tick w)
      | some cs => (Except.ok (String.mk cs), DemoWorld.tick w),
    HttpGetToInput := fun client w => (client, w),
    ParseGoogleMapsFromURL := fun u _ w =>
      if List.isPrefixOf "https://maps.example/".toList (String.toList u) then
        (Except.ok (String.mk ((String.toList u).drop 21)), DemoWorld.tick w)
      else (Except.error (GoError.fundamental "not a google maps link"), DemoWorld.tick w),
    WazeFromLocation := fun (link : String) w =>
      if link = "" then (Except.error (GoError.fundamental "no coordinates"), DemoWorld.tick w)
      else (Except.ok link, DemoWorld.tick w),
    WazeLinkURL := fun (link : String) => "https://waze.com/ul?ll=" ++ link ++ "&navigate=yes",
    URLString := fun u => u }

/-- A message whose replies are accepted. -/
def demoMessage (text : String) : Message demoTypes :=
  { Text := text, Reply := fun _ w => (none, DemoWorld.tick w) }

/-- A world with no webhook link, the health check on and a token. -/
def demoWorld : DemoWorld :=
  { webhookLink := "", disableHealthCheck := "", token := "123:abc", clock := 0 }

/-- A world with a webhook link the runtime accepts and the health check on. -/
def demoWorldWebhook : DemoWorld :=
  { webhookLink := "https://bot.example/hook", disableHealthCheck := "", token := "123:abc",
    clock := 0 }

/-- A world with a webhook link the runtime refuses and the health check
disabled. -/
def demoWorldRefusedLink : DemoWorld :=
  { webhookLink := "http://bot.example/hook", disableHealthCheck := "true", token := "123:abc",
    clock := 0 }

/-- A world with a webhook link the runtime refuses and the health check on. -/
def demoWorldRefusedLinkHealth : DemoWorld :=
  { webhookLink := "http://bot.example/hook", disableHealthCheck := "", token := "123:abc",
    clock := 0 }

/-- A world with a webhook link without a path and the health check
disabled. -/
def demoWorldEmptyPath : DemoWorld :=
  { webhookLink := "https://bot.example", disableHealthCheck := "true", token := "123:abc",
    clock := 0 }

/-- A world with a webhook link whose path is `/health` and the health check
on. -/
def demoWorldHealthPath : DemoWorld :=
  { webhookLink := "https://bot.example/health", disableHealthCheck := "", token := "123:abc",
    clock := 0 }

/-- A world with no token, no webhook link and the health check disabled. -/
def demoWorldNoTokenNoHealth : DemoWorld :=
  { webhookLink := "", disableHealthCheck := "true", token := "", clock := 0 }

/-- A world with no token, no webhook link and the health check on. -/
def demoWorldNoToken : DemoWorld :=
  { webhookLink := "", disableHealthCheck := "", token := "", clock := 0 }

/-- A runtime: the bot handle is its token and an empty token is refused; a
webhook is its path and only `https` links get one; a mux is the list of its
patterns and refuses an empty or a repeated pattern; polling and serving do
not return. -/
def demoRuntime : Runtime demoTypes :=
  { Getenv := fun name w =>
      if name = "TELEGRAM_WEBHOOK_LINK" then w.webhookLink
      else if name = "DISABLE_HEALTH_CHECK" then w.disableHealthCheck
      else if name = "TELEGRAM_TOKEN" then w.token
      else "",
    Parse := fun raw => Except.ok raw,
    Path := fun u => String.mk (((String.toList u).drop 8).dropWhile (fun x => x != '/')),
    New := fun token w =>
      if token = "" then (Except.error (GoError.fundamental "token is empty"), DemoWorld.tick w)
      else (Except.ok token, DemoWorld.tick w),
    CloseWebhook := fun _ w => (none, DemoWorld.tick w),
    Poll := fun _ _ _ => none,
    Webhook := fun _ link _ w =>
      if List.isPrefixOf "https://".toList (String.toList link) then
        (Except.ok (String.mk (((String.toList link).drop 8).dropWhile (fun x => x != '/'))),
         DemoWorld.tick w)
      else (Except.error (GoError.fundamental "webhook link is not https"), DemoWorld.tick w),
    WebhookHandler := fun _ => fun _ w => ([ResponseWriterCall.WriteHeader 200], w),
    NewServeMux := [],
    Handle := fun (mux : List String) pattern _ =>
      if pattern = "" ∨ pattern ∈ mux then none else some (mux ++ [pattern]),
    ListenAndServe := fun _ _ => none }

/-! ## The five paths of `onMessage` -/

theorem onMessage_start {T : Types} (P : Pipeline T) (message : Message T) (w : T.World)
    (hText : message.Text = "/start") :
    onMessage P message w =
      { err := (message.Reply welcomeReply w).1,
        calls := [Call.reply welcomeReply (message.Reply welcomeReply w).1],
        world := (message.Reply welcomeReply w).2 } := by
  unfold onMessage
  simp only [hText, if_true]
  rfl

theorem onMessage_scan_error {T : Types} (P : Pipeline T) (message : Message T) (w w1 : T.World)
    (e : GoError) (hText : message.Text ≠ "/start")
    (hScan : P.ParseFirstUrl message.Text w = (Except.error e, w1)) :
    onMessage P message w =
      { err := some (GoError.withMessage e "failed to parse url from message"),
        calls := [Call.parseFirstUrl message.Text (Except.error e)],
        world := w1 } := by
  unfold onMessage
  simp only [hText, if_false, hScan]
  rfl

theorem onMessage_resolve_error {T : Types} (P : Pipeline T) (message : Message T)
    (w w1 w2 w3 : T.World) (u : T.URL) (fetch : T.Fetcher) (e : GoError)
    (hText : message.Text ≠ "/start")
    (hScan : P.ParseFirstUrl message.Text w = (Except.ok u, w1))
    (hFetch : P.HttpGetToInput httpClient w1 = (fetch, w2))
    (hResolve : P.ParseGoogleMapsFromURL u fetch w2 = (Except.error e, w3)) :
    onMessage P message w =
      { err := some (GoError.withMessage e ("failed to parse google maps link: " ++ P.URLString u)),
        calls := [Call.parseFirstUrl message.Text (Except.ok u),
                  Call.httpGetToInput httpClient fetch,
                  Call.parseGoogleMapsFromURL u fetch (Except.error e)],
        world := w3 } := by
  unfold onMessage
  simp only [hText, if_false, hScan, hFetch, hResolve]
  rfl

theorem onMessage_encode_error {T : Types} (P : Pipeline T) (message : Message T)
    (w w1 w2 w3 w4 : T.World) (u : T.URL) (fetch : T.Fetcher) (link : T.GoogleMapsLink)
    (e : GoError) (hText : message.Text ≠ "/start")
    (hScan : P.ParseFirstUrl message.Text w = (Except.ok u, w1))
    (hFetch : P.HttpGetToInput httpClient w1 = (fetch, w2))
    (hResolve : P.ParseGoogleMapsFromURL u fetch w2 = (Except.ok link, w3))
    (hEncode : P.WazeFromLocation link w3 = (Except.error e, w4)) :
    onMessage P message w =
      { err := some (GoError.withMessage e "failed to map google maps url to waze link"),
        calls := [Call.parseFirstUrl message.Text (Except.ok u),
                  Call.httpGetToInput httpClient fetch,
                  Call.parseGoogleMapsFromURL u fetch (Except.ok link),
                  Call.wazeFromLocation link (Except.error e)],
        world := w4 } := by
  unfold onMessage
  simp only [hText, if_false, hScan, hFetch, hResolve, hEncode]
  rfl

theorem onMessage_reply {T : Types} (P : Pipeline T) (message : Message T)
    (w w1 w2 w3 w4 : T.World) (u : T.URL) (fetch : T.Fetcher) (link : T.GoogleMapsLink)
    (wazeLink : T.WazeLink) (hText : message.Text ≠ "/start")
    (hScan : P.ParseFirstUrl message.Text w = (Except.ok u, w1))
    (hFetch : P.HttpGetToInput httpClient w1 = (fetch, w2))
    (hResolve : P.ParseGoogleMapsFromURL u fetch w2 = (Except.ok link, w3))
    (hEncode : P.WazeFromLocation link w3 = (Except.ok wazeLink, w4)) :
    onMessage P message w =
      { err := (message.Reply (wazeReply P wazeLink) w4).1,
        calls := [Call.parseFirstUrl message.Text (Except.ok u),
                  Call.httpGetToInput httpClient fetch,
                  Call.parseGoogleMapsFromURL u fetch (Except.ok link),
                  Call.wazeFromLocation link (Except.ok wazeLink),
                  Call.reply (wazeReply P wazeLink) (message.Reply (wazeReply P wazeLink) w4).1],
        world := (message.Reply (wazeReply P wazeLink) w4).2 } := by
  unfold onMessage
  simp only [hText, if_false, hScan, hFetch, hResolve, hEncode]
  rfl

/-- Every run of `onMessage` on a text other than `/start` is one of the four
paths of the pipeline. -/
theorem onMessage_pipeline_cases {T : Types} (P : Pipeline T) (message : Message T) (w : T.World)
    (hText : message.Text ≠ "/start") :
    (∃ e w1, P.ParseFirstUrl message.Text w = (Except.error e, w1) ∧
      onMessage P message w =
        { err := some (GoError.withMessage e "failed to parse url from message"),
          calls := [Call.parseFirstUrl message.Text (Except.error e)],
          world := w1 }) ∨
    (∃ u w1 fetch w2 e w3, P.ParseFirstUrl message.Text w = (Except.ok u, w1) ∧
      P.HttpGetToInput httpClient w1 = (fetch, w2) ∧
      P.ParseGoogleMapsFromURL u fetch w2 = (Except.error e, w3) ∧
      onMessage P message w =
        { err := some (GoError.withMessage e
            ("failed to parse google maps link: " ++ P.URLString u)),
          calls := [Call.parseFirstUrl message.Text (Except.ok u),
                    Call.httpGetToInput httpClient fetch,
                    Call.parseGoogleMapsFromURL u fetch (Except.error e)],
          world := w3 }) ∨
    (∃ u w1 fetch w2 link w3 e w4, P.ParseFirstUrl message.Text w = (Except.ok u, w1) ∧
      P.HttpGetToInput httpClient w1 = (fetch, w2) ∧
      P.ParseGoogleMapsFromURL u fetch w2 = (Except.ok link, w3) ∧
      P.WazeFromLocation link w3 = (Except.error e, w4) ∧
      onMessage P message w =
        { err := some (GoError.withMessage e "failed to map google maps url to waze link"),
          calls := [Call.parseFirstUrl message.Text (Except.ok u),
                    Call.httpGetToInput httpClient fetch,
                    Call.parseGoogleMapsFromURL u fetch (Except.ok link),
                    Call.wazeFromLocation link (Except.error e)],
          world := w4 }) ∨
    (∃ u w1 fetch w2 link w3 wazeLink w4, P.ParseFirstUrl message.Text w = (Except.ok u, w1) ∧
      P.HttpGetToInput httpClient w1 = (fetch, w2) ∧
      P.ParseGoogleMapsFromURL u fetch w2 = (Except.ok link, w3) ∧
      P.WazeFromLocation link w3 = (Except.ok wazeLink, w4) ∧
      onMessage P message w =
        { err := (message.Reply (wazeReply P wazeLink) w4).1,
          calls := [Call.parseFirstUrl message.Text (Except.ok u),
                    Call.httpGetToInput httpClient fetch,
                    Call.parseGoogleMapsFromURL u fetch (Except.ok link),
                    Call.wazeFromLocation link (Except.ok wazeLink),
                    Call.reply (wazeReply P wazeLink)
                      (message.Reply (wazeReply P wazeLink) w4).1],
          world := (message.Reply (wazeReply P wazeLink) w4).2 }) := by
  rcases hScan : P.ParseFirstUrl message.Text w with ⟨r1, w1⟩
  cases r1 with
  | error e =>
    exact Or.inl ⟨e, w1, rfl, onMessage_scan_error P message w w1 e hText hScan⟩
  | ok u =>
    rcases hFetch : P.HttpGetToInput httpClient w1 with ⟨fetch, w2⟩
    rcases hResolve : P.ParseGoogleMapsFromURL u fetch w2 with ⟨r2, w3⟩
    cases r2 with
    | error e =>
      exact Or.inr (Or.inl ⟨u, w1, fetch, w2, e, w3, rfl, hFetch, hResolve,
        onMessage_resolve_error P message w w1 w2 w3 u fetch e hText hScan hFetch hResolve⟩)
    | ok link =>
      rcases hEncode : P.WazeFromLocation link w3 with ⟨r3, w4⟩
      cases r3 with
      | error e =>
        exact Or.inr (Or.inr (Or.inl ⟨u, w1, fetch, w2, link, w3, e, w4, rfl, hFetch, hResolve,
          hEncode,
          onMessage_encode_error P message w w1 w2 w3 w4 u fetch link e hText hScan hFetch
            hResolve hEncode⟩))
      | ok wazeLink =>
        exact Or.inr (Or.inr (Or.inr ⟨u, w1, fetch, w2, link, w3, wazeLink, w4, rfl, hFetch,
          hResolve, hEncode,
          onMessage_reply P message w w1 w2 w3 w4 u fetch link wazeLink hText hScan hFetch
            hResolve hEncode⟩))

/-! ## The claims about `onMessage` -/

set_option maxRecDepth 100000

/-- C1: when the text is not `/start` and the scanner, the resolver and the
encoder all succeed, each stage receives the output of the stage before it,
`onMessage` sends exactly one reply, whose text is the string of the URL of
the Waze link, not styled and with the web page preview disabled, and it
returns exactly what that call of `Reply` returns. -/
theorem onMessage_success_replies_waze_url {T : Types} (P : Pipeline T) (message : Message T)
    (w w1 w2 w3 w4 : T.World) (u : T.URL) (fetch : T.Fetcher) (link : T.GoogleMapsLink)
    (wazeLink : T.WazeLink) (hText : message.Text ≠ "/start")
    (hScan : P.ParseFirstUrl message.Text w = (Except.ok u, w1))
    (hFetch : P.HttpGetToInput httpClient w1 = (fetch, w2))
    (hResolve : P.ParseGoogleMapsFromURL u fetch w2 = (Except.ok link, w3))
    (hEncode : P.WazeFromLocation link w3 = (Except.ok wazeLink, w4)) :
    ∃ r : Reply,
      r.Text = P.URLString (P.WazeLinkURL wazeLink) ∧ r.Styled = false ∧
      r.DisableWebPagePreview = true ∧
      (onMessage P message w).calls =
        [Call.parseFirstUrl message.Text (Except.ok u),
         Call.httpGetToInput httpClient fetch,
         Call.parseGoogleMapsFromURL u fetch (Except.ok link),
         Call.wazeFromLocation link (Except.ok wazeLink),
         Call.reply r (message.Reply r w4).1] ∧
      countCalls Call.isReply (onMessage P message w).calls = 1 ∧
      (onMessage P message w).err = (message.Reply r w4).1 ∧
      (onMessage P message w).world = (message.Reply r w4).2 := by
  rw [onMessage_reply P message w w1 w2 w3 w4 u fetch link wazeLink hText hScan hFetch
    hResolve hEncode]
  exact ⟨wazeReply P wazeLink, rfl, rfl, rfl, rfl, rfl, rfl, rfl⟩

/-- C1, on a message that carries a link the resolver accepts. -/
theorem onMessage_success_replies_waze_url_witness :
    ∃ r : Reply,
      r.Text = "https://waze.com/ul?ll=40.7579747,-73.9855426&navigate=yes" ∧
      r.Styled = false ∧ r.DisableWebPagePreview = true ∧
      (onMessage demoPipeline
          (demoMessage "Hey! https://maps.example/40.7579747,-73.9855426 see you") demoWorld).calls =
        [Call.parseFirstUrl "Hey! https://maps.example/40.7579747,-73.9855426 see you"
           (Except.ok "https://maps.example/40.7579747,-73.9855426"),
         Call.httpGetToInput httpClient httpClient,
         Call.parseGoogleMapsFromURL "https://maps.example/40.7579747,-73.9855426" httpClient
           (Except.ok "40.7579747,-73.9855426"),
         Call.wazeFromLocation "40.7579747,-73.9855426" (Except.ok "40.7579747,-73.9855426"),
         Call.reply r none] ∧
      countCalls Call.isReply (onMessage demoPipeline
          (demoMessage "Hey! https://maps.example/40.7579747,-73.9855426 see you") demoWorld).calls = 1 ∧
      (onMessage demoPipeline
          (demoMessage "Hey! https://maps.example/40.7579747,-73.9855426 see you") demoWorld).err = none ∧
      (onMessage demoPipeline
          (demoMessage "Hey! https://maps.example/40.7579747,-73.9855426 see you") demoWorld).world =
        { demoWorld with clock := 4 } :=
  onMessage_success_replies_waze_url demoPipeline
    (demoMessage "Hey! https://maps.example/40.7579747,-73.9855426 see you") demoWorld
    { demoWorld with clock := 1 } { demoWorld with clock := 1 } { demoWorld with clock := 2 }
    { demoWorld with clock := 3 }
    "https://maps.example/40.7579747,-73.9855426" httpClient "40.7579747,-73.9855426"
    "40.7579747,-73.9855426" (by decide) rfl rfl rfl rfl

/-- C2: when the text is not `/start` and the scanner returns an error,
`onMessage` returns a non-nil error and stops there: the scanner is the only
call made, so neither the resolver nor the encoder is invoked and no reply
is sent. -/
theorem onMessage_no_url_halts {T : Types} (P : Pipeline T) (message : Message T)
    (w w1 : T.World) (e : GoError) (hText : message.Text ≠ "/start")
    (hScan : P.ParseFirstUrl message.Text w = (Except.error e, w1)) :
    (onMessage P message w).err ≠ none ∧
    (onMessage P message w).calls = [Call.parseFirstUrl message.Text (Except.error e)] ∧
    countCalls Call.isParseGoogleMapsFromURL (onMessage P message w).calls = 0 ∧
    countCalls Call.isWazeFromLocation (onMessage P message w).calls = 0 ∧
    countCalls Call.isReply (onMessage P message w).calls = 0 := by
  rw [onMessage_scan_error P message w w1 e hText hScan]
  exact ⟨by simp, rfl, rfl, rfl, rfl⟩

/-- C2, on the text `hello there`. -/
theorem onMessage_no_url_halts_witness :
    (onMessage demoPipeline (demoMessage "hello there") demoWorld).err ≠ none ∧
    (onMessage demoPipeline (demoMessage "hello there") demoWorld).calls =
      [Call.parseFirstUrl "hello there" (Except.error (GoError.fundamental "no url found"))] ∧
    countCalls Call.isParseGoogleMapsFromURL
      (onMessage demoPipeline (demoMessage "hello there") demoWorld).calls = 0 ∧
    countCalls Call.isWazeFromLocation
      (onMessage demoPipeline (demoMessage "hello there") demoWorld).calls = 0 ∧
    countCalls Call.isReply
      (onMessage demoPipeline (demoMessage "hello there") demoWorld).calls = 0 :=
  onMessage_no_url_halts demoPipeline (demoMessage "hello there") demoWorld
    { demoWorld with clock := 1 } (GoError.fundamental "no url found") (by decide) rfl

/-- C3: once the scanner has succeeded, a failure of the resolver ends the
run after a single resolver call, with a non-nil error, no encoder call and
no reply; a failure of the encoder ends it after a single resolver call and
a single encoder call, with a non-nil error and no reply; and whenever the
log holds a failed stage the returned error is not nil. -/
theorem onMessage_stage_failure_terminal {T : Types} (P : Pipeline T) (message : Message T)
    (w : T.World) :
    (∀ (u : T.URL) (w1 : T.World) (fetch : T.Fetcher) (w2 : T.World) (e : GoError)
        (w3 : T.World),
      message.Text ≠ "/start" →
      P.ParseFirstUrl message.Text w = (Except.ok u, w1) →
      P.HttpGetToInput httpClient w1 = (fetch, w2) →
      P.ParseGoogleMapsFromURL u fetch w2 = (Except.error e, w3) →
        (onMessage P message w).err ≠ none ∧
        (onMessage P message w).calls.getLast? =
          some (Call.parseGoogleMapsFromURL u fetch (Except.error e)) ∧
        countCalls Call.isParseGoogleMapsFromURL (onMessage P message w).calls = 1 ∧
        countCalls Call.isWazeFromLocation (onMessage P message w).calls = 0 ∧
        countCalls Call.isReply (onMessage P message w).calls = 0) ∧
    (∀ (u : T.URL) (w1 : T.World) (fetch : T.Fetcher) (w2 : T.World)
        (link : T.GoogleMapsLink) (w3 : T.World) (e : GoError) (w4 : T.World),
      message.Text ≠ "/start" →
      P.ParseFirstUrl message.Text w = (Except.ok u, w1) →
      P.HttpGetToInput httpClient w1 = (fetch, w2) →
      P.ParseGoogleMapsFromURL u fetch w2 = (Except.ok link, w3) →
      P.WazeFromLocation link w3 = (Except.error e, w4) →
        (onMessage P message w).err ≠ none ∧
        (onMessage P message w).calls.getLast? =
          some (Call.wazeFromLocation link (Except.error e)) ∧
        countCalls Call.isParseGoogleMapsFromURL (onMessage P message w).calls = 1 ∧
        countCalls Call.isWazeFromLocation (onMessage P message w).calls = 1 ∧
        countCalls Call.isReply (onMessage P message w).calls = 0) ∧
    ((∃ c ∈ (onMessage P message w).calls, Call.stageFailed c = true) →
      (onMessage P message w).err ≠ none ∧
      countCalls Call.isReply (onMessage P message w).calls = 0 ∧
      countCalls Call.stageFailed (onMessage P message w).calls = 1 ∧
      ∃ c, (onMessage P message w).calls.getLast? = some c ∧ Call.stageFailed c = true) := by
  refine ⟨?_, ?_, ?_⟩
  · intro u w1 fetch w2 e w3 hText hScan hFetch hResolve
    rw [onMessage_resolve_error P message w w1 w2 w3 u fetch e hText hScan hFetch hResolve]
    exact ⟨by simp, rfl, rfl, rfl, rfl⟩
  · intro u w1 fetch w2 link w3 e w4 hText hScan hFetch hResolve hEncode
    rw [onMessage_encode_error P message w w1 w2 w3 w4 u fetch link e hText hScan hFetch
      hResolve hEncode]
    exact ⟨by simp, rfl, rfl, rfl, rfl⟩
  · by_cases hText : message.Text = "/start"
    · rw [onMessage_start P message w hText]
      rintro ⟨c, hc, hf⟩
      simp at hc
      subst hc
      simp [Call.stageFailed] at hf
    · rcases onMessage_pipeline_cases P message w hText with
        ⟨e, w1, _, h⟩ | ⟨u, w1, fetch, w2, e, w3, _, _, _, h⟩ |
        ⟨u, w1, fetch, w2, link, w3, e, w4, _, _, _, _, h⟩ |
        ⟨u, w1, fetch, w2, link, w3, wazeLink, w4, _, _, _, _, h⟩
      · rw [h]
        intro _
        exact ⟨by simp, rfl, rfl, _, rfl, rfl⟩
      · rw [h]
        intro _
        exact ⟨by simp, rfl, rfl, _, rfl, rfl⟩
      · rw [h]
        intro _
        exact ⟨by simp, rfl, rfl, _, rfl, rfl⟩
      · rw [h]
        rintro ⟨c, hc, hf⟩
        simp at hc
        rcases hc with hc | hc | hc | hc | hc <;> subst hc <;> simp [Call.stageFailed] at hf

/-- C4: one run of `onMessage` calls the scanner, the resolver and the
encoder at most once each; the resolver is called zero times when the text
is `/start` or the scanner returns an error, and exactly once when the text
is not `/start` and the scanner returns a URL. -/
theorem onMessage_resolves_at_most_once {T : Types} (P : Pipeline T) (message : Message T)
    (w : T.World) :
    countCalls Call.isParseFirstUrl (onMessage P message w).calls ≤ 1 ∧
    countCalls Call.isParseGoogleMapsFromURL (onMessage P message w).calls ≤ 1 ∧
    countCalls Call.isWazeFromLocation (onMessage P message w).calls ≤ 1 ∧
    (message.Text = "/start" →
      countCalls Call.isParseGoogleMapsFromURL (onMessage P message w).calls = 0) ∧
    (∀ (e : GoError) (w1 : T.World), message.Text ≠ "/start" →
      P.ParseFirstUrl message.Text w = (Except.error e, w1) →
      countCalls Call.isParseGoogleMapsFromURL (onMessage P message w).calls = 0) ∧
    (∀ (u : T.URL) (w1 : T.World), message.Text ≠ "/start" →
      P.ParseFirstUrl message.Text w = (Except.ok u, w1) →
      countCalls Call.isParseGoogleMapsFromURL (onMessage P message w).calls = 1 ∧
      ∃ res, Call.parseGoogleMapsFromURL u (P.HttpGetToInput httpClient w1).1 res ∈
        (onMessage P message w).calls) := by
  by_cases hText : message.Text = "/start"
  · rw [onMessage_start P message w hText]
    refine ⟨by simp [countCalls, Call.isParseFirstUrl], by simp [countCalls, Call.isParseGoogleMapsFromURL], by simp [countCalls, Call.isWazeFromLocation], fun _ => rfl, ?_, ?_⟩
    · intro e w1 h
      exact absurd hText h
    · intro u w1 h
      exact absurd hText h
  · rcases onMessage_pipeline_cases P message w hText with
      ⟨e, w1, hS, h⟩ | ⟨u, w1, fetch, w2, e, w3, hS, hF, _, h⟩ |
      ⟨u, w1, fetch, w2, link, w3, e, w4, hS, hF, _, _, h⟩ |
      ⟨u, w1, fetch, w2, link, w3, wazeLink, w4, hS, hF, _, _, h⟩
    · rw [h]
      refine ⟨by simp [countCalls, Call.isParseFirstUrl], by simp [countCalls, Call.isParseGoogleMapsFromURL], by simp [countCalls, Call.isWazeFromLocation], fun _ => rfl, fun _ _ _ _ => rfl, ?_⟩
      intro u w1' _ hS'
      rw [hS] at hS'
      simp at hS'
    all_goals
      rw [h]
      refine ⟨by simp [countCalls, Call.isParseFirstUrl], by simp [countCalls, Call.isParseGoogleMapsFromURL], by simp [countCalls, Call.isWazeFromLocation], fun h0 => absurd h0 hText, ?_, ?_⟩
      · intro e' w1' _ hS'
        rw [hS] at hS'
        simp at hS'
      · intro u' w1' _ hS'
        rw [hS] at hS'
        simp only [Prod.mk.injEq, Except.ok.injEq] at hS'
        obtain ⟨hu, hw⟩ := hS'
        subst hu
        subst hw
        rw [hF]
        exact ⟨rfl, by simp⟩

/-- C5: `onMessage` sends the welcome reply (the welcome message, styled,
preview disabled) exactly when the text is `/start`; it then calls none of
the scanner, the resolver and the encoder, although the welcome message
holds Google Maps links, and returns what `Reply` returns.  Every other text
is handed to the scanner first, also `/start` with a blank before or after
it or with an argument. -/
theorem onMessage_welcome_iff_start {T : Types} (P : Pipeline T) (message : Message T)
    (w : T.World) :
    welcomeReply.Text = welcomeMessage ∧ welcomeReply.Styled = true ∧
    welcomeReply.DisableWebPagePreview = true ∧
    ((∃ res, Call.reply welcomeReply res ∈ (onMessage P message w).calls) ↔
      message.Text = "/start") ∧
    (message.Text = "/start" →
      (onMessage P message w).calls =
        [Call.reply welcomeReply (message.Reply welcomeReply w).1] ∧
      (onMessage P message w).err = (message.Reply welcomeReply w).1 ∧
      (onMessage P message w).world = (message.Reply welcomeReply w).2 ∧
      countCalls Call.isParseFirstUrl (onMessage P message w).calls = 0 ∧
      countCalls Call.isParseGoogleMapsFromURL (onMessage P message w).calls = 0 ∧
      countCalls Call.isWazeFromLocation (onMessage P message w).calls = 0) ∧
    (message.Text ≠ "/start" →
      (onMessage P message w).calls.head? =
        some (Call.parseFirstUrl message.Text (P.ParseFirstUrl message.Text w).1)) ∧
    (message.Text = " /start" ∨ message.Text = "/start " ∨ message.Text = "/start\n" ∨
        message.Text = "/start 42" →
      (onMessage P message w).calls.head? =
        some (Call.parseFirstUrl message.Text (P.ParseFirstUrl message.Text w).1)) ∧
    (∃ before after : String,
      welcomeMessage = before ++ "https://maps.app.goo.gl/M1B5J2cipJsHdRgy5" ++ after) ∧
    (∃ before after : String,
      welcomeMessage =
        before ++ "http://www.google.com/maps/place/40.7579747,-73.9855426" ++ after) := by
  have hPipe : message.Text ≠ "/start" →
      (onMessage P message w).calls.head? =
        some (Call.parseFirstUrl message.Text (P.ParseFirstUrl message.Text w).1) := by
    intro hText
    rcases onMessage_pipeline_cases P message w hText with
      ⟨e, w1, hS, h⟩ | ⟨u, w1, fetch, w2, e, w3, hS, _, _, h⟩ |
      ⟨u, w1, fetch, w2, link, w3, e, w4, hS, _, _, _, h⟩ |
      ⟨u, w1, fetch, w2, link, w3, wazeLink, w4, hS, _, _, _, h⟩ <;>
    · rw [h, hS]
      rfl
  refine ⟨rfl, rfl, rfl, ?_, ?_, hPipe, ?_, ?_, ?_⟩
  · constructor
    · rintro ⟨res, hres⟩
      by_contra hText
      rcases onMessage_pipeline_cases P message w hText with
        ⟨e, w1, _, h⟩ | ⟨u, w1, fetch, w2, e, w3, _, _, _, h⟩ |
        ⟨u, w1, fetch, w2, link, w3, e, w4, _, _, _, _, h⟩ |
        ⟨u, w1, fetch, w2, link, w3, wazeLink, w4, _, _, _, _, h⟩ <;>
      · rw [h] at hres
        simp [welcomeReply, wazeReply] at hres
    · intro hText
      rw [onMessage_start P message w hText]
      exact ⟨_, List.mem_singleton.mpr rfl⟩
  · intro hText
    rw [onMessage_start P message w hText]
    exact ⟨rfl, rfl, rfl, rfl, rfl, rfl⟩
  · intro h
    apply hPipe
    rcases h with h | h | h | h <;> rw [h] <;> decide
  · exact ⟨"\nWelcome to the Google Maps to Waze bot!\n" ++
      "Please send a Google Maps link, and I will provide you with a Waze link.\n\n" ++
      "Examples:\n- A short shared place link:\n",
      "\n- A full link with coordinates:\n" ++
      "http://www.google.com/maps/place/40.7579747,-73.9855426\n" ++
      "- Any message that includes a maps link:\n" ++
      "Hey! Check out this restaurant https://maps.app.goo.gl/jrDb7yQAfrJsvpaCA\n\n" ++
      "I am also capable of helping in group chats. Simply add me to the group and mention me with a link.\n" ++
      "Forwarding messages is just as effective as sending them directly!\n\n" ++
      "_*Waze app must be running before clicking on a Waze link!_\n" ++
      "_Otherwise the first link opening will just open the app but will not start the navigation._\n" ++
      "_This is a known Waze bug and not related to me._\n\nEnjoy!\n", rfl⟩
  · exact ⟨"\nWelcome to the Google Maps to Waze bot!\n" ++
      "Please send a Google Maps link, and I will provide you with a Waze link.\n\n" ++
      "Examples:\n- A short shared place link:\n" ++
      "https://maps.app.goo.gl/M1B5J2cipJsHdRgy5\n- A full link with coordinates:\n",
      "\n- Any message that includes a maps link:\n" ++
      "Hey! Check out this restaurant https://maps.app.goo.gl/jrDb7yQAfrJsvpaCA\n\n" ++
      "I am also capable of helping in group chats. Simply add me to the group and mention me with a link.\n" ++
      "Forwarding messages is just as effective as sending them directly!\n\n" ++
      "_*Waze app must be running before clicking on a Waze link!_\n" ++
      "_Otherwise the first link opening will just open the app but will not start the navigation._\n" ++
      "_This is a known Waze bug and not related to me._\n\nEnjoy!\n", rfl⟩

/-- C7: the package client has a timeout of 15 seconds, which is positive
and between one second and one minute, and no cookie jar; in every run of
`onMessage` every fetcher is built from that client, and the fetcher the
resolver receives is the one `maps.HttpGetToInput` returned for it, built
right after the scanner and right before the resolver call. -/
theorem onMessage_fetcher_uses_package_client {T : Types} (P : Pipeline T) (message : Message T)
    (w : T.World) :
    httpClient.Timeout = 15 * Second ∧ httpClient.Timeout = 15000000000 ∧
    0 < httpClient.Timeout ∧ Second ≤ httpClient.Timeout ∧ httpClient.Timeout < 60 * Second ∧
    httpClient.Jar = none ∧
    (∀ (client : HttpClient) (fetch : T.Fetcher),
      Call.httpGetToInput client fetch ∈ (onMessage P message w).calls → client = httpClient) ∧
    (∀ (u : T.URL) (fetch : T.Fetcher) (res : Except GoError T.GoogleMapsLink),
      Call.parseGoogleMapsFromURL u fetch res ∈ (onMessage P message w).calls →
      ∃ w1 : T.World, P.ParseFirstUrl message.Text w = (Except.ok u, w1) ∧
        fetch = (P.HttpGetToInput httpClient w1).1 ∧
        res = (P.ParseGoogleMapsFromURL u fetch (P.HttpGetToInput httpClient w1).2).1 ∧
        (onMessage P message w).calls.take 3 =
          [Call.parseFirstUrl message.Text (Except.ok u),
           Call.httpGetToInput httpClient fetch,
           Call.parseGoogleMapsFromURL u fetch res]) ∧
    (∀ (u : T.URL) (w1 : T.World), message.Text ≠ "/start" →
      P.ParseFirstUrl message.Text w = (Except.ok u, w1) →
      ∃ res, Call.parseGoogleMapsFromURL u (P.HttpGetToInput httpClient w1).1 res ∈
        (onMessage P message w).calls) := by
  refine ⟨rfl, by decide, by decide, by decide, by decide, rfl, ?_, ?_, ?_⟩
  · intro client fetch hmem
    by_cases hText : message.Text = "/start"
    · rw [onMessage_start P message w hText] at hmem
      simp at hmem
    · rcases onMessage_pipeline_cases P message w hText with
        ⟨e, w1, _, h⟩ | ⟨u, w1, fetch, w2, e, w3, _, _, _, h⟩ |
        ⟨u, w1, fetch, w2, link, w3, e, w4, _, _, _, _, h⟩ |
        ⟨u, w1, fetch, w2, link, w3, wazeLink, w4, _, _, _, _, h⟩ <;>
      · rw [h] at hmem
        simp at hmem
        try exact hmem.1
  · intro u fetch res hmem
    by_cases hText : message.Text = "/start"
    · rw [onMessage_start P message w hText] at hmem
      simp at hmem
    · rcases onMessage_pipeline_cases P message w hText with
        ⟨e, w1, _, h⟩ | ⟨u', w1, fetch', w2, e, w3, hS, hF, hR, h⟩ |
        ⟨u', w1, fetch', w2, link, w3, e, w4, hS, hF, hR, _, h⟩ |
        ⟨u', w1, fetch', w2, link, w3, wazeLink, w4, hS, hF, hR, _, h⟩
      · rw [h] at hmem
        simp at hmem
      all_goals
        rw [h] at hmem
        simp at hmem
        obtain ⟨hu, hf, hr⟩ := hmem
        subst hu
        subst hf
        subst hr
        refine ⟨w1, hS, ?_, ?_, ?_⟩
        · rw [hF]
        · rw [hF, hR]
        · rw [h]
          rfl
  · intro u w1 hText hS
    rcases onMessage_pipeline_cases P message w hText with
      ⟨e, w1', hS', h⟩ | ⟨u', w1', fetch', w2, e, w3, hS', hF, hR, h⟩ |
      ⟨u', w1', fetch', w2, link, w3, e, w4, hS', hF, hR, _, h⟩ |
      ⟨u', w1', fetch', w2, link, w3, wazeLink, w4, hS', hF, hR, _, h⟩
    · rw [hS] at hS'
      simp at hS'
    all_goals
      rw [hS] at hS'
      simp only [Prod.mk.injEq, Except.ok.injEq] at hS'
      obtain ⟨hu, hw⟩ := hS'
      subst hu
      subst hw
      rw [h, hF]
      simp

/-! ## Telling the stage errors apart -/

/-- Two texts whose first `n` characters differ stay different whatever is
appended to them. -/
theorem append_ne_of_take_ne (a b x y : String) (n : Nat) (ha : n ≤ a.data.length)
    (hb : n ≤ b.data.length) (hne : a.data.take n ≠ b.data.take n) : a ++ x ≠ b ++ y := by
  intro h
  apply hne
  have h1 : (a ++ x).data.take n = (b ++ y).data.take n := by rw [h]
  rw [String.data_append, String.data_append, List.take_append_of_le_length ha,
    List.take_append_of_le_length hb] at h1
  exact h1

/-- The texts of the errors of two different stages differ, whatever the
URL and the causes are. -/
theorem wrapped_text_determines_stage (s1 s2 : Stage) (url1 url2 : String) (c1 c2 : GoError)
    (h : (GoError.withMessage c1 (Stage.wrapMessage url1 s1)).Error =
      (GoError.withMessage c2 (Stage.wrapMessage url2 s2)).Error) : s1 = s2 := by
  cases s1 <;> cases s2 <;> first
    | rfl
    | (exfalso
       simp only [GoError.Error, Stage.wrapMessage, String.append_assoc] at h
       revert h
       apply append_ne_of_take_ne _ _ _ _ 17 (by decide) (by decide) (by decide))

/-- The stage that fails on a message fixes the returned error: the error
of that stage annotated with the message of that stage. -/
theorem onMessage_stageFailure_error {T : Types} (P : Pipeline T) (message : Message T)
    (w : T.World) (s : Stage) (e : GoError) (urlText : String)
    (h : stageFailure P message w = some (s, e, urlText)) :
    (onMessage P message w).err = some (GoError.withMessage e (Stage.wrapMessage urlText s)) := by
  unfold stageFailure at h
  by_cases hText : message.Text = "/start"
  · simp [hText] at h
  · simp only [hText, if_false] at h
    rcases onMessage_pipeline_cases P message w hText with
      ⟨e', w1, hS, h'⟩ | ⟨u, w1, fetch, w2, e', w3, hS, hF, hR, h'⟩ |
      ⟨u, w1, fetch, w2, link, w3, e', w4, hS, hF, hR, hE, h'⟩ |
      ⟨u, w1, fetch, w2, link, w3, wazeLink, w4, hS, hF, hR, hE, h'⟩
    · rw [hS] at h
      simp only [Option.some.injEq, Prod.mk.injEq] at h
      obtain ⟨hs, he, hu⟩ := h
      subst hs
      subst he
      subst hu
      rw [h']
      rfl
    · rw [hS] at h
      simp only [hF, hR, Option.some.injEq, Prod.mk.injEq] at h
      obtain ⟨hs, he, hu⟩ := h
      subst hs
      subst he
      subst hu
      rw [h']
      rfl
    · rw [hS] at h
      simp only [hF, hR, hE, Option.some.injEq, Prod.mk.injEq] at h
      obtain ⟨hs, he, hu⟩ := h
      subst hs
      subst he
      subst hu
      rw [h']
      rfl
    · rw [hS] at h
      simp [hF, hR, hE] at h

/-- C6: the error a stage returns comes back annotated, with that error as
its cause, by the message of that stage: `failed to parse url from message`
for the scanner, `failed to parse google maps link: ` and the URL for the
resolver, `failed to map google maps url to waze link` for the encoder.  The
three messages are pairwise distinct for every URL, and for any two
messages on which a stage fails, equal texts of the returned errors mean
that the same stage failed. -/
theorem onMessage_error_determines_stage {T T2 : Types} (P : Pipeline T) (message : Message T)
    (w : T.World) (P2 : Pipeline T2) (message2 : Message T2) (w2 : T2.World) :
    (∀ (e : GoError) (w1 : T.World), message.Text ≠ "/start" →
      P.ParseFirstUrl message.Text w = (Except.error e, w1) →
      stageFailure P message w = some (Stage.scanner, e, "") ∧
      (onMessage P message w).err =
        some (GoError.withMessage e "failed to parse url from message") ∧
      (onMessage P message w).err = Wrap (some e) "failed to parse url from message") ∧
    (∀ (u : T.URL) (w1 : T.World) (fetch : T.Fetcher) (w2 : T.World) (e : GoError)
        (w3 : T.World), message.Text ≠ "/start" →
      P.ParseFirstUrl message.Text w = (Except.ok u, w1) →
      P.HttpGetToInput httpClient w1 = (fetch, w2) →
      P.ParseGoogleMapsFromURL u fetch w2 = (Except.error e, w3) →
      stageFailure P message w = some (Stage.resolver, e, P.URLString u) ∧
      (onMessage P message w).err =
        some (GoError.withMessage e ("failed to parse google maps link: " ++ P.URLString u)) ∧
      (onMessage P message w).err =
        Wrap (some e) ("failed to parse google maps link: " ++ P.URLString u)) ∧
    (∀ (u : T.URL) (w1 : T.World) (fetch : T.Fetcher) (w2 : T.World)
        (link : T.GoogleMapsLink) (w3 : T.World) (e : GoError) (w4 : T.World),
      message.Text ≠ "/start" →
      P.ParseFirstUrl message.Text w = (Except.ok u, w1) →
      P.HttpGetToInput httpClient w1 = (fetch, w2) →
      P.ParseGoogleMapsFromURL u fetch w2 = (Except.ok link, w3) →
      P.WazeFromLocation link w3 = (Except.error e, w4) →
      stageFailure P message w = some (Stage.encoder, e, "") ∧
      (onMessage P message w).err =
        some (GoError.withMessage e "failed to map google maps url to waze link") ∧
      (onMessage P message w).err =
        Wrap (some e) "failed to map google maps url to waze link") ∧
    (∀ (e : GoError) (msg : String), (GoError.withMessage e msg).Cause = e.Cause) ∧
    (∀ urlText : String,
      "failed to parse url from message" ≠ "failed to parse google maps link: " ++ urlText ∧
      "failed to parse google maps link: " ++ urlText ≠
        "failed to map google maps url to waze link" ∧
      "failed to parse url from message" ≠ "failed to map google maps url to waze link") ∧
    (∀ (s : Stage) (e : GoError) (urlText : String),
      stageFailure P message w = some (s, e, urlText) →
      (onMessage P message w).err =
        some (GoError.withMessage e (Stage.wrapMessage urlText s)) ∧
      (onMessage P message w).err ≠ none) ∧
    (∀ (s s2 : Stage) (e e2 : GoError) (urlText urlText2 : String),
      stageFailure P message w = some (s, e, urlText) →
      stageFailure P2 message2 w2 = some (s2, e2, urlText2) →
      Option.map GoError.Error (onMessage P message w).err =
        Option.map GoError.Error (onMessage P2 message2 w2).err →
      s = s2) := by
  refine ⟨?_, ?_, ?_, fun _ _ => rfl, ?_, ?_, ?_⟩
  · intro e w1 hText hS
    refine ⟨?_, ?_, ?_⟩
    · unfold stageFailure
      simp only [hText, if_false, hS]
    · rw [onMessage_scan_error P message w w1 e hText hS]
    · rw [onMessage_scan_error P message w w1 e hText hS]
      rfl
  · intro u w1 fetch w2' e w3 hText hS hF hR
    refine ⟨?_, ?_, ?_⟩
    · unfold stageFailure
      simp only [hText, if_false, hS, hF, hR]
    · rw [onMessage_resolve_error P message w w1 w2' w3 u fetch e hText hS hF hR]
    · rw [onMessage_resolve_error P message w w1 w2' w3 u fetch e hText hS hF hR]
      rfl
  · intro u w1 fetch w2' link w3 e w4 hText hS hF hR hE
    refine ⟨?_, ?_, ?_⟩
    · unfold stageFailure
      simp only [hText, if_false, hS, hF, hR, hE]
    · rw [onMessage_encode_error P message w w1 w2' w3 w4 u fetch link e hText hS hF hR hE]
    · rw [onMessage_encode_error P message w w1 w2' w3 w4 u fetch link e hText hS hF hR hE]
      rfl
  · intro urlText
    refine ⟨?_, ?_, ?_⟩
    · have h := append_ne_of_take_ne "failed to parse url from message"
        "failed to parse google maps link: " "" urlText 17 (by decide) (by decide) (by decide)
      simpa using h
    · have h := append_ne_of_take_ne "failed to parse google maps link: "
        "failed to map google maps url to waze link" urlText "" 17 (by decide) (by decide)
        (by decide)
      simpa using h
    · decide
  · intro s e urlText h
    rw [onMessage_stageFailure_error P message w s e urlText h]
    exact ⟨rfl, by simp⟩
  · intro s s2 e e2 urlText urlText2 h h2 hEq
    rw [onMessage_stageFailure_error P message w s e urlText h,
      onMessage_stageFailure_error P2 message2 w2 s2 e2 urlText2 h2] at hEq
    simp only [Option.map_some', Option.some.injEq] at hEq
    exact wrapped_text_determines_stage s s2 urlText urlText2 e e2 hEq

/-! ## The goroutines -/

theorem applyOpts_registerOpt {T : Types} (R : Runtime T) (regs : List (String × HttpHandler T)) :
    ∀ (mux m : T.ServeMux), registerAll R regs mux = some m →
      (applyOpts (regs.map (registerOpt R)) mux).2 = some m ∧
      registrations (applyOpts (regs.map (registerOpt R)) mux).1 = regs ∧
      ∀ e ∈ (applyOpts (regs.map (registerOpt R)) mux).1, ∃ p h r, e = GoEvent.handle p h r := by
  induction regs with
  | nil =>
    intro mux m h
    simp only [registerAll, Option.some.injEq] at h
    subst h
    simp [applyOpts, registrations]
  | cons reg rest ih =>
    intro mux m h
    obtain ⟨p, hd⟩ := reg
    simp only [registerAll] at h
    cases hH : R.Handle mux p hd with
    | none =>
      rw [hH] at h
      cases h
    | some m1 =>
      rw [hH] at h
      obtain ⟨h2, h3, h4⟩ := ih m1 m h
      simp only [List.map_cons, applyOpts, registerOpt, hH]
      rcases hA : applyOpts (rest.map (registerOpt R)) m1 with ⟨ev2, res⟩
      rw [hA] at h2 h3 h4
      refine ⟨h2, ?_, ?_⟩
      · simp only [registrations] at h3 ⊢
        simp [GoEvent.registration, h3]
      · intro e he
        simp only [List.singleton_append, List.mem_cons] at he
        rcases he with he | he
        · exact ⟨_, _, _, he⟩
        · exact h4 e he

/-- The events of the serving goroutine when every registration is
accepted: the calls of `Handle`, then `ListenAndServe` on the server with
the built mux and the address `:8080`, then at most a send. -/
theorem serveGoroutine_events {T : Types} (R : Runtime T)
    (regs : List (String × HttpHandler T)) (m : T.ServeMux)
    (hReg : registerAll R regs R.NewServeMux = some m) (wp : T.World) :
    ∃ (evs : List (GoEvent T)) (srv : Server T) (res : Option (Option GoError))
      (sent : List (GoEvent T)),
      (serveGoroutine R (regs.map (registerOpt R)) wp).events =
        evs ++ [GoEvent.listenAndServe srv res] ++ sent ∧
      registrations evs = regs ∧
      (∀ e ∈ evs, ∃ p h r, e = GoEvent.handle p h r) ∧
      (sent = [] ∨ ∃ err, sent = [GoEvent.send err]) ∧
      srv.Addr = ":8080" ∧ srv.Handler = m := by
  obtain ⟨h2, h3, h4⟩ := applyOpts_registerOpt R regs R.NewServeMux m hReg
  unfold serveGoroutine server
  rcases hA : applyOpts (regs.map (registerOpt R)) R.NewServeMux with ⟨evs, r⟩
  rw [hA] at h2 h3 h4
  simp only at h2
  subst h2
  dsimp only
  have hAddr : ("" ++ ":" ++ toString serverPort) = ":8080" := by decide
  rcases hL : R.ListenAndServe
      { Addr := "" ++ ":" ++ toString serverPort, Handler := m, ReadHeaderTimeout := 5 * Second,
        WriteTimeout := 5 * Second, IdleTimeout := 30 * Second } wp with _ | ⟨res, wp1⟩
  · exact ⟨evs,
      { Addr := "" ++ ":" ++ toString serverPort, Handler := m, ReadHeaderTimeout := 5 * Second,
        WriteTimeout := 5 * Second, IdleTimeout := 30 * Second },
      none, [], by simp, h3, h4, Or.inl rfl, hAddr, rfl⟩
  · cases res with
    | none =>
      exact ⟨evs,
        { Addr := "" ++ ":" ++ toString serverPort, Handler := m,
          ReadHeaderTimeout := 5 * Second, WriteTimeout := 5 * Second,
          IdleTimeout := 30 * Second },
        some none, [], by simp, h3, h4, Or.inl rfl, hAddr, rfl⟩
    | some err =>
      exact ⟨evs,
        { Addr := "" ++ ":" ++ toString serverPort, Handler := m,
          ReadHeaderTimeout := 5 * Second, WriteTimeout := 5 * Second,
          IdleTimeout := 30 * Second },
        some (some err), [GoEvent.send err], by simp, h3, h4, Or.inr ⟨err, rfl⟩, hAddr, rfl⟩

theorem serveGoroutine_servesOn {T : Types} (R : Runtime T)
    (regs : List (String × HttpHandler T)) (m : T.ServeMux)
    (hReg : registerAll R regs R.NewServeMux = some m) :
    ServesOn R ":8080" regs (serveGoroutine R (regs.map (registerOpt R))) := by
  intro wp
  obtain ⟨evs, srv, res, sent, hev, hregs, _, hsent, hAddr, hMux⟩ :=
    serveGoroutine_events R regs m hReg wp
  refine ⟨?_, srv, res, ?_, hAddr, ?_⟩
  · rw [hev]
    simp only [registrations, List.filterMap_append] at hregs ⊢
    rw [hregs]
    rcases hsent with h | ⟨err, h⟩ <;> rw [h] <;> simp [GoEvent.registration]
  · rw [hev]
    simp
  · rw [hReg, hMux]

theorem serveGoroutine_never_polls {T : Types} (R : Runtime T)
    (regs : List (String × HttpHandler T)) (m : T.ServeMux)
    (hReg : registerAll R regs R.NewServeMux = some m) (wp : T.World) :
    (serveGoroutine R (regs.map (registerOpt R)) wp).events.filter GoEvent.isPoll = [] := by
  obtain ⟨evs, srv, res, sent, hev, _, hHandle, hsent, _, _⟩ :=
    serveGoroutine_events R regs m hReg wp
  rw [hev]
  have h1 : evs.filter GoEvent.isPoll = [] := by
    rw [List.filter_eq_nil_iff]
    intro e he
    obtain ⟨p, h, r, hp⟩ := hHandle e he
    rw [hp]
    simp [GoEvent.isPoll]
  simp only [List.filter_append, h1]
  rcases hsent with h | ⟨err, h⟩ <;> rw [h] <;> simp [GoEvent.isPoll]

theorem pollGoroutine_pollsWith {T : Types} (R : Runtime T) (P : Pipeline T) (tg : T.Telegram) :
    PollsWith (onMessage P) (pollGoroutine R P tg) := by
  intro wp
  unfold pollGoroutine
  rcases hC : R.CloseWebhook tg wp with ⟨res1, wp1⟩
  dsimp only
  rcases hP : R.Poll tg (onMessage P) wp1 with _ | ⟨res2, wp2⟩ <;>
    cases res1 <;> (try cases res2) <;>
    exact ⟨tg, _, _, rfl, rfl⟩

theorem pollGoroutine_never_serves {T : Types} (R : Runtime T) (P : Pipeline T)
    (tg : T.Telegram) (wp : T.World) (srv : Server T) (res : Option (Option GoError)) :
    GoEvent.listenAndServe srv res ∉ (pollGoroutine R P tg wp).events := by
  unfold pollGoroutine
  rcases hC : R.CloseWebhook tg wp with ⟨res1, wp1⟩
  dsimp only
  rcases hP : R.Poll tg (onMessage P) wp1 with _ | ⟨res2, wp2⟩ <;>
    cases res1 <;> (try cases res2) <;> simp

theorem servesOn_unique {T : Types} (R : Runtime T) (addr : String)
    (regs regs2 : List (String × HttpHandler T)) (body : T.World → GoOutcome T) (wp : T.World)
    (h : ServesOn R addr regs body) (h2 : ServesOn R addr regs2 body) : regs = regs2 := by
  rw [← (h wp).1, ← (h2 wp).1]

theorem serverOpts_eq_registerOpt {T : Types} (R : Runtime T) (path : String) (wh : T.Webhook)
    (d : Bool) :
    [withTelegramWebhook R path wh] ++ (if d = true then [] else [withHealthCheck R]) =
      (((path, R.WebhookHandler wh) :: healthRegs d).map (registerOpt R)) := by
  cases d <;> rfl

/-! ## The paths of `main` -/

theorem main_polling {T : Types} (R : Runtime T) (P : Pipeline T) (w w1 : T.World)
    (o : opts T) (tg : T.Telegram) (hOpts : envOpts R w = Except.ok o)
    (hNew : R.New o.telegram.Token w = (Except.ok tg, w1))
    (hLink : o.telegram.WebhookLink = none) :
    main R P w =
      { events := [MainEvent.telegramNew o.telegram.Token (Except.ok tg),
                   MainEvent.go (pollGoroutine R P tg)] ++
          (if o.disableHealthCheck = true then []
           else [MainEvent.go (serveGoroutine R ((healthRegs false).map (registerOpt R)))]),
        finish := MainEnd.awaitsChannel,
        world := w1 } := by
  unfold main
  simp only [hOpts, hNew, hLink]
  cases o.disableHealthCheck <;> simp
  rfl

theorem main_webhook {T : Types} (R : Runtime T) (P : Pipeline T) (w w1 w2 : T.World)
    (o : opts T) (tg : T.Telegram) (link : T.URL) (wh : T.Webhook)
    (hOpts : envOpts R w = Except.ok o)
    (hNew : R.New o.telegram.Token w = (Except.ok tg, w1))
    (hLink : o.telegram.WebhookLink = some link)
    (hHook : R.Webhook tg link (onMessage P) w1 = (Except.ok wh, w2)) :
    main R P w =
      { events := [MainEvent.telegramNew o.telegram.Token (Except.ok tg),
                   MainEvent.webhook tg link (onMessage P) (Except.ok wh),
                   MainEvent.go (serveGoroutine R
                     (((R.Path link, R.WebhookHandler wh) ::
                       healthRegs o.disableHealthCheck).map (registerOpt R)))],
        finish := MainEnd.awaitsChannel,
        world := w2 } := by
  rw [← serverOpts_eq_registerOpt]
  unfold main
  simp only [hOpts, hNew, hLink, hHook]
  cases o.disableHealthCheck <;> simp

/-- When `tg.Webhook` returns an error `main` panics and starts no goroutine. -/
theorem main_webhook_error {T : Types} (R : Runtime T) (P : Pipeline T) (w w1 w2 : T.World)
    (o : opts T) (tg : T.Telegram) (link : T.URL) (e : GoError)
    (hOpts : envOpts R w = Except.ok o)
    (hNew : R.New o.telegram.Token w = (Except.ok tg, w1))
    (hLink : o.telegram.WebhookLink = some link)
    (hHook : R.Webhook tg link (onMessage P) w1 = (Except.error e, w2)) :
    main R P w =
      { events := [MainEvent.telegramNew o.telegram.Token (Except.ok tg),
                   MainEvent.webhook tg link (onMessage P) (Except.error e)],
        finish := MainEnd.panicked
          (some (GoError.withMessage e "failed to initialize webhook")),
        world := w2 } := by
  unfold main
  simp only [hOpts, hNew, hLink, hHook]
  rfl

/-- When `telegram.New` returns an error `main` panics and starts no goroutine. -/
theorem main_new_error {T : Types} (R : Runtime T) (P : Pipeline T) (w w1 : T.World)
    (o : opts T) (e : GoError) (hOpts : envOpts R w = Except.ok o)
    (hNew : R.New o.telegram.Token w = (Except.error e, w1)) :
    main R P w =
      { events := [MainEvent.telegramNew o.telegram.Token (Except.error e)],
        finish := MainEnd.panicked
          (some (GoError.withMessage e "failed to initialize telegram")),
        world := w1 } := by
  unfold main
  simp only [hOpts, hNew]
  rfl

/-- With a webhook link, a created webhook and accepted registrations, the
run of `main` starts the server with exactly these registrations and no
goroutine that polls. -/
theorem main_webhook_serves {T : Types} (R : Runtime T) (P : Pipeline T) (w w1 w2 : T.World)
    (o : opts T) (tg : T.Telegram) (link : T.URL) (wh : T.Webhook)
    (hOpts : envOpts R w = Except.ok o)
    (hNew : R.New o.telegram.Token w = (Except.ok tg, w1))
    (hLink : o.telegram.WebhookLink = some link)
    (hHook : R.Webhook tg link (onMessage P) w1 = (Except.ok wh, w2))
    (hReg : (registerAll R ((R.Path link, R.WebhookHandler wh) ::
      healthRegs o.disableHealthCheck) R.NewServeMux).isSome = true) :
    MainEvent.webhook tg link (onMessage P) (Except.ok wh) ∈ (main R P w).events ∧
    StartsServer R ((R.Path link, R.WebhookHandler wh) :: healthRegs o.disableHealthCheck)
      (main R P w) ∧
    (∀ regs, StartsServer R regs (main R P w) →
      regs = (R.Path link, R.WebhookHandler wh) :: healthRegs o.disableHealthCheck) ∧
    (∀ body wp, MainEvent.go body ∈ (main R P w).events →
      (body wp).events.filter GoEvent.isPoll = []) := by
  obtain ⟨m, hm⟩ := Option.isSome_iff_exists.mp hReg
  rw [main_webhook R P w w1 w2 o tg link wh hOpts hNew hLink hHook]
  have hS := serveGoroutine_servesOn R _ m hm
  refine ⟨by simp, ⟨_, by simp, hS⟩, ?_, ?_⟩
  · rintro regs ⟨body, hmem, hb⟩
    simp only [List.mem_cons, reduceCtorEq, MainEvent.go.injEq, false_or, List.mem_singleton,
      List.not_mem_nil, or_false] at hmem
    subst hmem
    exact servesOn_unique R ":8080" _ _ _ w hb hS
  · intro body wp hmem
    simp only [List.mem_cons, reduceCtorEq, MainEvent.go.injEq, false_or, List.mem_singleton,
      List.not_mem_nil, or_false] at hmem
    subst hmem
    exact serveGoroutine_never_polls R _ m hm wp

/-- With no webhook link the run of `main` starts the polling goroutine,
creates no webhook, and starts the server exactly when the health check is
on, with the health registration only. -/
theorem main_polling_polls {T : Types} (R : Runtime T) (P : Pipeline T) (w w1 : T.World)
    (o : opts T) (tg : T.Telegram) (hOpts : envOpts R w = Except.ok o)
    (hNew : R.New o.telegram.Token w = (Except.ok tg, w1))
    (hLink : o.telegram.WebhookLink = none) :
    StartsPolling (onMessage P) (main R P w) ∧
    countSteps MainEvent.isWebhook (main R P w).events = 0 ∧
    (∀ tg2 link handler res, MainEvent.webhook tg2 link handler res ∉ (main R P w).events) ∧
    (o.disableHealthCheck = true → ∀ body wp srv res, MainEvent.go body ∈ (main R P w).events →
      GoEvent.listenAndServe srv res ∉ (body wp).events) ∧
    (∀ regs, StartsServer R regs (main R P w) →
      o.disableHealthCheck = false ∧
      ((registerAll R (healthRegs false) R.NewServeMux).isSome = true → regs = healthRegs false)) ∧
    (o.disableHealthCheck = false →
      (registerAll R (healthRegs false) R.NewServeMux).isSome = true →
      StartsServer R (healthRegs false) (main R P w)) := by
  rw [main_polling R P w w1 o tg hOpts hNew hLink]
  refine ⟨⟨_, by simp, pollGoroutine_pollsWith R P tg⟩, ?_, ?_, ?_, ?_, ?_⟩
  · cases o.disableHealthCheck <;> rfl
  · intro tg2 link handler res
    cases o.disableHealthCheck <;> simp
  · intro hD body wp srv res hmem
    rw [hD] at hmem
    simp only [if_true, List.append_nil, List.mem_cons, reduceCtorEq, MainEvent.go.injEq,
      false_or, List.mem_singleton, List.not_mem_nil, or_false] at hmem
    subst hmem
    exact pollGoroutine_never_serves R P tg wp srv res
  · rintro regs ⟨body, hmem, hb⟩
    cases hD : o.disableHealthCheck with
    | true =>
      rw [hD] at hmem
      simp only [if_true, List.append_nil, List.mem_cons, reduceCtorEq, MainEvent.go.injEq,
        false_or, List.mem_singleton, List.not_mem_nil, or_false] at hmem
      subst hmem
      obtain ⟨_, srv, res, hl, _⟩ := hb w
      exact absurd hl (pollGoroutine_never_serves R P tg w srv res)
    | false =>
      refine ⟨rfl, ?_⟩
      intro hReg
      obtain ⟨m, hm⟩ := Option.isSome_iff_exists.mp hReg
      rw [hD] at hmem
      simp only [Bool.false_eq_true, if_false, List.cons_append, List.nil_append, List.mem_cons,
        reduceCtorEq, MainEvent.go.injEq, false_or, List.mem_singleton, List.not_mem_nil,
        or_false] at hmem
      rcases hmem with hmem | hmem
      · subst hmem
        obtain ⟨_, srv, res, hl, _⟩ := hb w
        exact absurd hl (pollGoroutine_never_serves R P tg w srv res)
      · subst hmem
        exact servesOn_unique R ":8080" _ _ _ w hb (serveGoroutine_servesOn R _ m hm)
  · intro hD hReg
    obtain ⟨m, hm⟩ := Option.isSome_iff_exists.mp hReg
    rw [hD]
    exact ⟨_, by simp, serveGoroutine_servesOn R _ m hm⟩

/-! ## The claims about `main` -/

/-- C8, as stated, fails, in three runs that start neither transport.  With
a webhook link for which `tg.Webhook` returns an error, `main` panics with
`failed to initialize webhook`.  With a webhook link without a path, the bot
and the webhook are created but `mux.Handle` refuses the empty pattern: the
server goroutine panics with nothing registered and never listens.  With no
webhook link and a token for which `telegram.New` returns an error, `main`
panics with `failed to initialize telegram` before the polling goroutine. -/
theorem main_transport_neither_counterexample :
    ((∃ o : opts demoTypes, envOpts demoRuntime demoWorldRefusedLink = Except.ok o ∧
        o.telegram.WebhookLink = some "http://bot.example/hook") ∧
      ¬ StartsPolling (onMessage demoPipeline)
        (main demoRuntime demoPipeline demoWorldRefusedLink) ∧
      ¬ ServesWebhook demoRuntime (onMessage demoPipeline)
        (main demoRuntime demoPipeline demoWorldRefusedLink) ∧
      (main demoRuntime demoPipeline demoWorldRefusedLink).finish =
        MainEnd.panicked (some (GoError.withMessage
          (GoError.fundamental "webhook link is not https") "failed to initialize webhook"))) ∧
    ((∃ o : opts demoTypes, envOpts demoRuntime demoWorldEmptyPath = Except.ok o ∧
        o.telegram.WebhookLink = some "https://bot.example") ∧
      demoRuntime.New "123:abc" demoWorldEmptyPath =
        (Except.ok "123:abc", DemoWorld.tick demoWorldEmptyPath) ∧
      demoRuntime.Webhook "123:abc" "https://bot.example" (onMessage demoPipeline)
          (DemoWorld.tick demoWorldEmptyPath) =
        (Except.ok "", DemoWorld.tick (DemoWorld.tick demoWorldEmptyPath)) ∧
      demoRuntime.Path "https://bot.example" = "" ∧
      ¬ StartsPolling (onMessage demoPipeline)
        (main demoRuntime demoPipeline demoWorldEmptyPath) ∧
      ¬ ServesWebhook demoRuntime (onMessage demoPipeline)
        (main demoRuntime demoPipeline demoWorldEmptyPath) ∧
      ∃ body, MainEvent.go body ∈ (main demoRuntime demoPipeline demoWorldEmptyPath).events ∧
        (body demoWorld).events =
          [GoEvent.handle "" (demoRuntime.WebhookHandler "") none, GoEvent.panicked]) ∧
    ((∃ o : opts demoTypes, envOpts demoRuntime demoWorldNoTokenNoHealth = Except.ok o ∧
        o.telegram.WebhookLink = none) ∧
      ¬ StartsPolling (onMessage demoPipeline)
        (main demoRuntime demoPipeline demoWorldNoTokenNoHealth) ∧
      ¬ ServesWebhook demoRuntime (onMessage demoPipeline)
        (main demoRuntime demoPipeline demoWorldNoTokenNoHealth) ∧
      (main demoRuntime demoPipeline demoWorldNoTokenNoHealth).finish =
        MainEnd.panicked (some (GoError.withMessage
          (GoError.fundamental "token is empty") "failed to initialize telegram"))) := by
  have hev1 : (main demoRuntime demoPipeline demoWorldRefusedLink).events =
      [MainEvent.telegramNew "123:abc" (Except.ok "123:abc"),
       MainEvent.webhook "123:abc" "http://bot.example/hook" (onMessage demoPipeline)
         (Except.error (GoError.fundamental "webhook link is not https"))] := rfl
  have hev2 : (main demoRuntime demoPipeline demoWorldEmptyPath).events =
      [MainEvent.telegramNew "123:abc" (Except.ok "123:abc"),
       MainEvent.webhook "123:abc" "https://bot.example" (onMessage demoPipeline)
         (Except.ok ""),
       MainEvent.go (serveGoroutine demoRuntime [withTelegramWebhook demoRuntime "" ""])] := rfl
  have hev3 : (main demoRuntime demoPipeline demoWorldNoTokenNoHealth).events =
      [MainEvent.telegramNew "" (Except.error (GoError.fundamental "token is empty"))] := rfl
  have hbody : ∀ wp : DemoWorld,
      (serveGoroutine demoRuntime [withTelegramWebhook demoRuntime "" ""] wp).events =
        [GoEvent.handle "" (demoRuntime.WebhookHandler "") none, GoEvent.panicked] :=
    fun _ => rfl
  refine ⟨⟨⟨_, rfl, rfl⟩, ?_, ?_, rfl⟩, ⟨⟨_, rfl, rfl⟩, rfl, rfl, rfl, ?_, ?_, ?_⟩,
    ⟨⟨_, rfl, rfl⟩, ?_, ?_, rfl⟩⟩
  · rintro ⟨body, hmem, _⟩
    rw [hev1] at hmem
    simp at hmem
  · rintro ⟨tg, link, wh, regs, _, ⟨body, hmem, _⟩, _⟩
    rw [hev1] at hmem
    simp at hmem
  · rintro ⟨body, hmem, hp⟩
    rw [hev2] at hmem
    simp only [List.mem_cons, reduceCtorEq, MainEvent.go.injEq, false_or, List.mem_singleton,
      List.not_mem_nil, or_false] at hmem
    subst hmem
    obtain ⟨tg, res1, res2, hh, _⟩ := hp demoWorld
    rw [hbody] at hh
    simp at hh
  · rintro ⟨tg, link, wh, regs, _, ⟨body, hmem, hs⟩, _⟩
    rw [hev2] at hmem
    simp only [List.mem_cons, reduceCtorEq, MainEvent.go.injEq, false_or, List.mem_singleton,
      List.not_mem_nil, or_false] at hmem
    subst hmem
    obtain ⟨_, srv, res, hl, _⟩ := hs demoWorld
    rw [hbody] at hl
    simp at hl
  · exact ⟨_, by rw [hev2]; simp, hbody demoWorld⟩
  · rintro ⟨body, hmem, _⟩
    rw [hev3] at hmem
    simp at hmem
  · rintro ⟨tg, link, wh, regs, _, ⟨body, hmem, _⟩, _⟩
    rw [hev3] at hmem
    simp at hmem

/-- C8, amended: when `telegram.New` succeeds and, for a configured webhook
link, `tg.Webhook` succeeds and `mux.Handle` accepts the registrations of
the server, the run of `main` initialises the polling API (a goroutine that
calls `CloseWebhook` first and then `Poll` once) exactly when no webhook link
is configured, and it creates the webhook and registers the handler of the
webhook on the server it starts, at the path of the link, exactly when a link
is configured: never both and never neither.  Both transports get the handler
`onMessage`.  With no link `tg.Webhook` is not called; with a link no
goroutine calls `Poll`, and the registrations of the server are the handler
of the webhook at the path of the link followed by the health check when it
is on. -/
theorem main_selects_one_transport {T : Types} (R : Runtime T) (P : Pipeline T)
    (w w1 : T.World) (o : opts T) (tg : T.Telegram)
    (hOpts : envOpts R w = Except.ok o)
    (hNew : R.New o.telegram.Token w = (Except.ok tg, w1))
    (hHook : ∀ link, o.telegram.WebhookLink = some link →
      ∃ wh w2, R.Webhook tg link (onMessage P) w1 = (Except.ok wh, w2) ∧
        (registerAll R ((R.Path link, R.WebhookHandler wh) ::
          healthRegs o.disableHealthCheck) R.NewServeMux).isSome = true) :
    (StartsPolling (onMessage P) (main R P w) ↔ o.telegram.WebhookLink = none) ∧
    (ServesWebhook R (onMessage P) (main R P w) ↔ o.telegram.WebhookLink ≠ none) ∧
    ((StartsPolling (onMessage P) (main R P w) ∧
        ¬ ServesWebhook R (onMessage P) (main R P w)) ∨
      (¬ StartsPolling (onMessage P) (main R P w) ∧
        ServesWebhook R (onMessage P) (main R P w))) ∧
    (o.telegram.WebhookLink = none →
      countSteps MainEvent.isWebhook (main R P w).events = 0 ∧
      (main R P w).events.take 2 =
        [MainEvent.telegramNew o.telegram.Token (Except.ok tg),
         MainEvent.go (pollGoroutine R P tg)] ∧
      ∀ wp, (pollGoroutine R P tg wp).events.head? =
          some (GoEvent.closeWebhook tg (R.CloseWebhook tg wp).1) ∧
        ∃ res, (pollGoroutine R P tg wp).events.filter GoEvent.isPoll =
          [GoEvent.poll tg (onMessage P) res]) ∧
    (o.telegram.WebhookLink ≠ none →
      ∀ body wp, MainEvent.go body ∈ (main R P w).events →
        (body wp).events.filter GoEvent.isPoll = []) ∧
    (∀ link, o.telegram.WebhookLink = some link →
      ∃ wh w2, R.Webhook tg link (onMessage P) w1 = (Except.ok wh, w2) ∧
        MainEvent.webhook tg link (onMessage P) (Except.ok wh) ∈ (main R P w).events ∧
        StartsServer R ((R.Path link, R.WebhookHandler wh) ::
          healthRegs o.disableHealthCheck) (main R P w) ∧
        ∀ regs, StartsServer R regs (main R P w) →
          regs = (R.Path link, R.WebhookHandler wh) :: healthRegs o.disableHealthCheck) := by
  cases hLink : o.telegram.WebhookLink with
  | none =>
    obtain ⟨hP, hC, hNo, _, _, _⟩ := main_polling_polls R P w w1 o tg hOpts hNew hLink
    have hNW : ¬ ServesWebhook R (onMessage P) (main R P w) := by
      rintro ⟨tg2, link, wh, regs, hmem, _⟩
      exact hNo tg2 link (onMessage P) (Except.ok wh) hmem
    have hTake : (main R P w).events.take 2 =
        [MainEvent.telegramNew o.telegram.Token (Except.ok tg),
         MainEvent.go (pollGoroutine R P tg)] := by
      rw [main_polling R P w w1 o tg hOpts hNew hLink]
      rfl
    have hBody : ∀ wp, (pollGoroutine R P tg wp).events.head? =
          some (GoEvent.closeWebhook tg (R.CloseWebhook tg wp).1) ∧
        ∃ res, (pollGoroutine R P tg wp).events.filter GoEvent.isPoll =
          [GoEvent.poll tg (onMessage P) res] := by
      intro wp
      unfold pollGoroutine
      rcases hC : R.CloseWebhook tg wp with ⟨res1, wp1⟩
      dsimp only
      rcases hP : R.Poll tg (onMessage P) wp1 with _ | ⟨res2, wp2⟩ <;>
        cases res1 <;> (try cases res2) <;>
        exact ⟨rfl, _, rfl⟩
    refine ⟨⟨fun _ => rfl, fun _ => hP⟩, ⟨fun h => absurd h hNW, fun h => absurd rfl h⟩,
      Or.inl ⟨hP, hNW⟩, fun _ => ⟨hC, hTake, hBody⟩, fun h => absurd rfl h, ?_⟩
    intro link h
    cases h
  | some link =>
    obtain ⟨wh, w2, hW, hReg⟩ := hHook link hLink
    obtain ⟨hMem, hS, hU, hNP⟩ :=
      main_webhook_serves R P w w1 w2 o tg link wh hOpts hNew hLink hW hReg
    have hSW : ServesWebhook R (onMessage P) (main R P w) :=
      ⟨tg, link, wh, _, hMem, hS, List.mem_cons_self _ _⟩
    have hNP2 : ¬ StartsPolling (onMessage P) (main R P w) := by
      rintro ⟨body, hmem, hp⟩
      obtain ⟨tg2, res1, res2, _, hf⟩ := hp w
      rw [hNP body w hmem] at hf
      cases hf
    refine ⟨⟨fun h => absurd h hNP2, fun h => (by cases h)⟩,
      ⟨fun _ h => (by cases h), fun _ => hSW⟩,
      Or.inr ⟨hNP2, hSW⟩, fun h => (by cases h), fun _ => hNP, ?_⟩
    intro link2 h
    cases h
    exact ⟨wh, w2, hW, hMem, hS, hU⟩

/-- C8, amended, in the world with an accepted webhook link: the bot and the
webhook are created, the mux accepts `/hook` and `/health`, and the run
serves the webhook and does not poll. -/
theorem main_selects_one_transport_witness :
    envOpts demoRuntime demoWorldWebhook =
      Except.ok { telegram := { Token := "123:abc",
                                WebhookLink := some "https://bot.example/hook" },
                  disableHealthCheck := false } ∧
    demoRuntime.New "123:abc" demoWorldWebhook =
      (Except.ok "123:abc", DemoWorld.tick demoWorldWebhook) ∧
    ((StartsPolling (onMessage demoPipeline) (main demoRuntime demoPipeline demoWorldWebhook) ∧
        ¬ ServesWebhook demoRuntime (onMessage demoPipeline)
          (main demoRuntime demoPipeline demoWorldWebhook)) ∨
      (¬ StartsPolling (onMessage demoPipeline)
          (main demoRuntime demoPipeline demoWorldWebhook) ∧
        ServesWebhook demoRuntime (onMessage demoPipeline)
          (main demoRuntime demoPipeline demoWorldWebhook))) :=
  ⟨rfl, rfl,
   (main_selects_one_transport demoRuntime demoPipeline demoWorldWebhook
      (DemoWorld.tick demoWorldWebhook)
      { telegram := { Token := "123:abc", WebhookLink := some "https://bot.example/hook" },
        disableHealthCheck := false }
      "123:abc" rfl rfl
      (fun link h => by
        cases h
        exact ⟨"/hook", DemoWorld.tick (DemoWorld.tick demoWorldWebhook), rfl, rfl⟩)).2.2.1⟩

/-- C9, as stated, fails, in three runs that start no server although a
webhook link is configured or the health check is on.  With a link for
which `tg.Webhook` returns an error, and with a token for which
`telegram.New` returns an error, `main` panics before the server goroutine.
With a link whose path is `/health` and the health check on, the bot and the
webhook are created, but `mux.Handle` refuses the second registration of
`/health`: the server goroutine panics, the health check is not registered
and `ListenAndServe` is never called. -/
theorem main_server_not_started_counterexample :
    ((∃ o : opts demoTypes, envOpts demoRuntime demoWorldRefusedLinkHealth = Except.ok o ∧
        o.telegram.WebhookLink = some "http://bot.example/hook" ∧
        o.disableHealthCheck = false) ∧
      (¬ ∃ regs, StartsServer demoRuntime regs
        (main demoRuntime demoPipeline demoWorldRefusedLinkHealth)) ∧
      (main demoRuntime demoPipeline demoWorldRefusedLinkHealth).finish =
        MainEnd.panicked (some (GoError.withMessage
          (GoError.fundamental "webhook link is not https") "failed to initialize webhook"))) ∧
    ((∃ o : opts demoTypes, envOpts demoRuntime demoWorldHealthPath = Except.ok o ∧
        o.telegram.WebhookLink = some "https://bot.example/health" ∧
        o.disableHealthCheck = false) ∧
      demoRuntime.New "123:abc" demoWorldHealthPath =
        (Except.ok "123:abc", DemoWorld.tick demoWorldHealthPath) ∧
      demoRuntime.Webhook "123:abc" "https://bot.example/health" (onMessage demoPipeline)
          (DemoWorld.tick demoWorldHealthPath) =
        (Except.ok "/health", DemoWorld.tick (DemoWorld.tick demoWorldHealthPath)) ∧
      demoRuntime.Path "https://bot.example/health" = "/health" ∧
      (¬ ∃ regs, StartsServer demoRuntime regs
        (main demoRuntime demoPipeline demoWorldHealthPath)) ∧
      ∃ body, MainEvent.go body ∈ (main demoRuntime demoPipeline demoWorldHealthPath).events ∧
        (body demoWorld).events =
          [GoEvent.handle "/health" (demoRuntime.WebhookHandler "/health") (some ["/health"]),
           GoEvent.handle "/health" healthCheckHandler none,
           GoEvent.panicked]) ∧
    ((∃ o : opts demoTypes, envOpts demoRuntime demoWorldNoToken = Except.ok o ∧
        o.telegram.WebhookLink = none ∧ o.disableHealthCheck = false) ∧
      (¬ ∃ regs, StartsServer demoRuntime regs
        (main demoRuntime demoPipeline demoWorldNoToken)) ∧
      (main demoRuntime demoPipeline demoWorldNoToken).finish =
        MainEnd.panicked (some (GoError.withMessage
          (GoError.fundamental "token is empty") "failed to initialize telegram"))) := by
  have hev1 : (main demoRuntime demoPipeline demoWorldRefusedLinkHealth).events =
      [MainEvent.telegramNew "123:abc" (Except.ok "123:abc"),
       MainEvent.webhook "123:abc" "http://bot.example/hook" (onMessage demoPipeline)
         (Except.error (GoError.fundamental "webhook link is not https"))] := rfl
  have hev2 : (main demoRuntime demoPipeline demoWorldHealthPath).events =
      [MainEvent.telegramNew "123:abc" (Except.ok "123:abc"),
       MainEvent.webhook "123:abc" "https://bot.example/health" (onMessage demoPipeline)
         (Except.ok "/health"),
       MainEvent.go (serveGoroutine demoRuntime
         [withTelegramWebhook demoRuntime "/health" "/health", withHealthCheck demoRuntime])] :=
    rfl
  have hev3 : (main demoRuntime demoPipeline demoWorldNoToken).events =
      [MainEvent.telegramNew "" (Except.error (GoError.fundamental "token is empty"))] := rfl
  have hbody : ∀ wp : DemoWorld,
      (serveGoroutine demoRuntime
        [withTelegramWebhook demoRuntime "/health" "/health", withHealthCheck demoRuntime]
        wp).events =
        [GoEvent.handle "/health" (demoRuntime.WebhookHandler "/health") (some ["/health"]),
         GoEvent.handle "/health" healthCheckHandler none,
         GoEvent.panicked] :=
    fun _ => rfl
  refine ⟨⟨⟨_, rfl, rfl, rfl⟩, ?_, rfl⟩, ⟨⟨_, rfl, rfl, rfl⟩, rfl, rfl, rfl, ?_, ?_⟩,
    ⟨⟨_, rfl, rfl, rfl⟩, ?_, rfl⟩⟩
  · rintro ⟨regs, body, hmem, _⟩
    rw [hev1] at hmem
    simp at hmem
  · rintro ⟨regs, body, hmem, hs⟩
    rw [hev2] at hmem
    simp only [List.mem_cons, reduceCtorEq, MainEvent.go.injEq, false_or, List.mem_singleton,
      List.not_mem_nil, or_false] at hmem
    subst hmem
    obtain ⟨_, srv, res, hl, _⟩ := hs demoWorld
    rw [hbody] at hl
    simp at hl
  · exact ⟨_, by rw [hev2]; simp, hbody demoWorld⟩
  · rintro ⟨regs, body, hmem, _⟩
    rw [hev3] at hmem
    simp at hmem

/-- C9, amended: when `telegram.New` succeeds and, for a configured webhook
link, `tg.Webhook` succeeds, and `mux.Handle` accepts the registrations of
the server, the run of `main` starts the HTTP server (a goroutine that calls
`ListenAndServe` on a server with the address `:8080`) exactly when a
webhook link is configured or the health check is not disabled.  The
registrations of that server are exactly the handler of the webhook at the
path of the link, when a link is configured, followed by the health check
exactly when `disableHealthCheck` is false: the path `/health` with a
handler that only writes status 200, for every request.  With no webhook
link and the health check disabled no goroutine calls `ListenAndServe`. -/
theorem main_starts_server_iff_options {T : Types} (R : Runtime T) (P : Pipeline T)
    (w w1 : T.World) (o : opts T) (tg : T.Telegram)
    (hOpts : envOpts R w = Except.ok o)
    (hNew : R.New o.telegram.Token w = (Except.ok tg, w1))
    (hHook : ∀ link, o.telegram.WebhookLink = some link →
      ∃ wh w2, R.Webhook tg link (onMessage P) w1 = (Except.ok wh, w2) ∧
        (registerAll R ((R.Path link, R.WebhookHandler wh) ::
          healthRegs o.disableHealthCheck) R.NewServeMux).isSome = true)
    (hHealth : o.telegram.WebhookLink = none →
      (registerAll R (healthRegs o.disableHealthCheck) R.NewServeMux).isSome = true) :
    ((∃ regs, StartsServer R regs (main R P w)) ↔
      (o.telegram.WebhookLink ≠ none ∨ o.disableHealthCheck = false)) ∧
    (o.telegram.WebhookLink = none → o.disableHealthCheck = false →
      StartsServer R [("/health", healthCheckHandler)] (main R P w) ∧
      ∀ regs, StartsServer R regs (main R P w) → regs = [("/health", healthCheckHandler)]) ∧
    (∀ link, o.telegram.WebhookLink = some link →
      ∃ wh w2, R.Webhook tg link (onMessage P) w1 = (Except.ok wh, w2) ∧
        StartsServer R ((R.Path link, R.WebhookHandler wh) ::
          healthRegs o.disableHealthCheck) (main R P w) ∧
        ∀ regs, StartsServer R regs (main R P w) →
          regs = (R.Path link, R.WebhookHandler wh) :: healthRegs o.disableHealthCheck) ∧
    ((healthRegs false : List (String × HttpHandler T)) = [("/health", healthCheckHandler)] ∧
      (healthRegs true : List (String × HttpHandler T)) = []) ∧
    (∀ (req : T.Request) (wq : T.World),
      (healthCheckHandler : HttpHandler T) req wq =
        ([ResponseWriterCall.WriteHeader 200], wq)) ∧
    (o.telegram.WebhookLink = none → o.disableHealthCheck = true →
      ∀ body wp srv res, MainEvent.go body ∈ (main R P w).events →
        GoEvent.listenAndServe srv res ∉ (body wp).events) := by
  cases hLink : o.telegram.WebhookLink with
  | none =>
    obtain ⟨_, _, _, hNoListen, hOnly, hStart⟩ :=
      main_polling_polls R P w w1 o tg hOpts hNew hLink
    have hH := hHealth hLink
    refine ⟨⟨?_, ?_⟩, ?_, ?_, ⟨rfl, rfl⟩, fun _ _ => rfl, fun _ => hNoListen⟩
    · rintro ⟨regs, hs⟩
      exact Or.inr (hOnly regs hs).1
    · rintro (h | h)
      · exact absurd rfl h
      · rw [h] at hH
        exact ⟨_, hStart h hH⟩
    · intro _ hD
      rw [hD] at hH
      exact ⟨hStart hD hH, fun regs hs => (hOnly regs hs).2 hH⟩
    · intro link h
      cases h
  | some link =>
    obtain ⟨wh, w2, hW, hReg⟩ := hHook link hLink
    obtain ⟨_, hS, hU, _⟩ :=
      main_webhook_serves R P w w1 w2 o tg link wh hOpts hNew hLink hW hReg
    refine ⟨⟨fun _ => Or.inl (by simp), fun _ => ⟨_, hS⟩⟩, fun h => (by cases h), ?_,
      ⟨rfl, rfl⟩, fun _ _ => rfl, fun h => (by cases h)⟩
    intro link2 h
    cases h
    exact ⟨wh, w2, hW, hS, hU⟩

/-- C9, amended, in the world with no webhook link and the health check on:
the bot is created, the mux accepts `/health`, and the run starts the server
with the health check as its only registration. -/
theorem main_starts_server_iff_options_witness :
    envOpts demoRuntime demoWorld =
      Except.ok { telegram := { Token := "123:abc", WebhookLink := none },
                  disableHealthCheck := false } ∧
    demoRuntime.New "123:abc" demoWorld = (Except.ok "123:abc", DemoWorld.tick demoWorld) ∧
    (registerAll demoRuntime (healthRegs false) demoRuntime.NewServeMux).isSome = true ∧
    StartsServer demoRuntime [("/health", healthCheckHandler)]
      (main demoRuntime demoPipeline demoWorld) :=
  ⟨rfl, rfl, rfl,
   ((main_starts_server_iff_options demoRuntime demoPipeline demoWorld
      (DemoWorld.tick demoWorld)
      { telegram := { Token := "123:abc", WebhookLink := none }, disableHealthCheck := false }
      "123:abc" rfl rfl (fun link h => by cases h) (fun _ => rfl)).2.1 rfl rfl).1⟩

end GoogleMapsToWaze
